import Mathlib

set_option autoImplicit false
set_option maxHeartbeats 1000000

/-! # Verification of the QC-Client system-information collector

Shallow embedding of `SystemInfoCollector` (the aggregation and caching
engine of the QC client) together with the adapters it invokes, and theorems
settling the specification's claims against it.  The embedding follows the
C++ source: the `nlohmann::json` caches become the `Json` type below,
`json::merge_patch` becomes `Json.mergePatch`, each `get<Category>Info`
adapter becomes a Lean function over an environment record describing the
outcome of its native queries, and the collector's mutable statics become an
explicit `CState` threaded through the operations. -/

/-! ## JSON values

Object entries keep insertion order (`nlohmann::json` keeps objects sorted
by key; every statement below inspects records only through key lookup, so
the entry order is never observable in a theorem).  Doubles produced by the
source are always rounded or formatted to two decimals before being stored,
so they are represented by their value in hundredths (constructor `dbl`). -/

mutual
inductive Json where
  | null : Json
  | str : String → Json
  | num : Int → Json
  | dbl : Int → Json
  | bool : Bool → Json
  | arr : List Json → Json
  | obj : JObj → Json

inductive JObj where
  | nil : JObj
  | cons : String → Json → JObj → JObj
end

/-- Key lookup in an object entry list (`json::find` / `map::find`). -/
def JObj.get : JObj → String → Option Json
  | .nil, _ => none
  | .cons k v rest, key => if k = key then some v else JObj.get rest key

/-- Key update in an object entry list (`json::operator[]=` / `map::operator[]=`):
replaces the value in place if the key exists, appends otherwise. -/
def JObj.set : JObj → String → Json → JObj
  | .nil, key, v => .cons key v .nil
  | .cons k w rest, key, v =>
      if k = key then .cons k v rest else .cons k w (JObj.set rest key v)

/-- Key removal in an object entry list (`json::erase`). -/
def JObj.del : JObj → String → JObj
  | .nil, _ => .nil
  | .cons k w rest, key =>
      if k = key then JObj.del rest key else .cons k w (JObj.del rest key)

/-- The keys of an object entry list. -/
def JObj.keys : JObj → List String
  | .nil => []
  | .cons k _ rest => k :: JObj.keys rest

def JObj.isNil : JObj → Bool
  | .nil => true
  | .cons _ _ _ => false

def Json.isObjB : Json → Bool
  | .obj _ => true
  | _ => false

/-- `json::is_null()`. -/
def Json.isNullB : Json → Bool
  | .null => true
  | _ => false

/-- `json::operator[](key)` as read access (used only on objects / null). -/
def Json.lookup : Json → String → Option Json
  | .obj es, k => JObj.get es k
  | _, _ => none

/-- `json::operator[](key) = v`: on a null value the json first becomes an
empty object (the only non-object values the program ever assigns into are
default-constructed null jsons). -/
def Json.setKey : Json → String → Json → Json
  | .obj es, k, v => .obj (JObj.set es k v)
  | _, k, v => .obj (JObj.cons k v .nil)

/-- `json::erase(key)` (only ever reached on objects in `merge_patch`). -/
def Json.eraseKey : Json → String → Json
  | .obj es, k => .obj (JObj.del es k)
  | j, _ => j

/-- `json::operator[](key)` on a possibly missing key: missing keys read as
null (`operator[]` value-initializes absent entries). -/
def Json.getKeyD (j : Json) (k : String) : Json := (j.lookup k).getD .null

/-- `json::empty()`: true for null and for empty objects/arrays. -/
def Json.isEmptyJ : Json → Bool
  | .null => true
  | .obj es => es.isNil
  | .arr es => es.isEmpty
  | _ => false

/-- The top-level keys of a json value (empty for non-objects). -/
def Json.keysOf : Json → List String
  | .obj es => JObj.keys es
  | _ => []

/-! ## `json::merge_patch` (RFC 7396, as implemented by nlohmann)

```cpp
void merge_patch(const basic_json& apply_patch) {
  if (apply_patch.is_object()) {
    if (!is_object()) *this = object();
    for (auto it : apply_patch.items())
      if (it.value().is_null()) erase(it.key());
      else operator[](it.key()).merge_patch(it.value());
  } else *this = apply_patch;
}
``` -/

mutual
def Json.mergePatch : Json → Json → Json
  | target, .obj entries =>
      Json.mergeIntoObj (if target.isObjB then target else .obj .nil) entries
  | _, patch => patch

def Json.mergeIntoObj : Json → JObj → Json
  | target, .nil => target
  | target, .cons k v rest =>
      match v with
      | .null => Json.mergeIntoObj (target.eraseKey k) rest
      | _ => Json.mergeIntoObj (target.setKey k (Json.mergePatch (target.getKeyD k) v)) rest
end

/-! ### Association-list and merge lemmas -/

theorem JObj.inductionOn {motive : JObj → Prop} (h0 : motive .nil)
    (h1 : ∀ k v rest, motive rest → motive (.cons k v rest)) : ∀ o, motive o
  | .nil => h0
  | .cons k v rest => h1 k v rest (JObj.inductionOn h0 h1 rest)

theorem JObj.get_set_self (o : JObj) (k : String) (v : Json) :
    (o.set k v).get k = some v := by
  induction o using JObj.inductionOn with
  | h0 => simp [JObj.set, JObj.get]
  | h1 k1 w rest ih =>
      by_cases h : k1 = k
      · simp [JObj.set, JObj.get, h]
      · simp [JObj.set, JObj.get, h, ih]

theorem JObj.get_set_ne (o : JObj) (k key : String) (v : Json) (h : k ≠ key) :
    (o.set key v).get k = o.get k := by
  induction o using JObj.inductionOn with
  | h0 => simp [JObj.set, JObj.get, Ne.symm h]
  | h1 k1 w rest ih =>
      by_cases h1 : k1 = key
      · subst h1
        simp [JObj.set, JObj.get, Ne.symm h]
      · simp only [JObj.set, if_neg h1, JObj.get]
        by_cases h2 : k1 = k
        · simp [h2]
        · simp [h2, ih]

theorem JObj.get_del_ne (o : JObj) (k key : String) (h : k ≠ key) :
    (o.del key).get k = o.get k := by
  induction o using JObj.inductionOn with
  | h0 => simp [JObj.del]
  | h1 k1 w rest ih =>
      by_cases h1 : k1 = key
      · subst h1
        simp [JObj.del, JObj.get, Ne.symm h, ih]
      · simp only [JObj.del, if_neg h1, JObj.get]
        by_cases h2 : k1 = k
        · simp [h2]
        · simp [h2, ih]

theorem Json.lookup_setKey_self (j : Json) (k : String) (v : Json) :
    (j.setKey k v).lookup k = some v := by
  cases j <;> simp [Json.setKey, Json.lookup, JObj.get, JObj.get_set_self]

theorem Json.lookup_setKey_ne (j : Json) (k key : String) (v : Json) (h : k ≠ key) :
    (j.setKey key v).lookup k = j.lookup k := by
  cases j <;>
    simp [Json.setKey, Json.lookup, JObj.get, Ne.symm h, JObj.get_set_ne _ _ _ _ h]

theorem Json.lookup_eraseKey_ne (j : Json) (k key : String) (h : k ≠ key) :
    (j.eraseKey key).lookup k = j.lookup k := by
  cases j <;> simp [Json.eraseKey, Json.lookup, JObj.get_del_ne _ _ _ h]

/-- The object-merging loop, one entry at a time. -/
theorem Json.mergeIntoObj_cons (t : Json) (k : String) (v : Json) (rest : JObj) :
    Json.mergeIntoObj t (.cons k v rest) =
      if v.isNullB then Json.mergeIntoObj (t.eraseKey k) rest
      else Json.mergeIntoObj (t.setKey k (Json.mergePatch (t.getKeyD k) v)) rest := by
  cases v <;> simp [Json.mergeIntoObj, Json.isNullB]

/-- A key absent from the patch keeps its target value through the
object-merging loop. -/
theorem Json.lookup_mergeIntoObj_notin (es : JObj) (t : Json) (k : String)
    (h : k ∉ es.keys) :
    (Json.mergeIntoObj t es).lookup k = t.lookup k := by
  induction es using JObj.inductionOn generalizing t with
  | h0 => simp [Json.mergeIntoObj]
  | h1 k1 v rest ih =>
      simp only [JObj.keys, List.mem_cons, not_or] at h
      rw [Json.mergeIntoObj_cons]
      by_cases hv : v.isNullB = true
      · rw [if_pos hv, ih _ h.2, Json.lookup_eraseKey_ne _ _ _ h.1]
      · rw [if_neg hv, ih _ h.2, Json.lookup_setKey_ne _ _ _ _ h.1]

/-! ## String helpers of `SystemInfoCollector.cpp`

`sanitizeString`, `safeWMIString`, ASCII lowercasing (`::tolower` as applied
by the source to ASCII device names), and `std::basic_string::find`-style
substring containment.  The C++ `sanitizeString` walks the bytes of a
`std::string`; it is modelled here per character, which agrees with the byte
walk on the ASCII data every claim below evaluates it on. -/

/-- A character `sanitizeString` keeps unchanged (printable ASCII or a UTF-8
lead byte); everything else is replaced by a space. -/
def keepChar (c : Char) : Bool :=
  (0x20 ≤ c.toNat && c.toNat ≤ 0x7E) || (0xC2 ≤ c.toNat && c.toNat ≤ 0xF4)

/-- The whitespace set `" \t\r\n"` trimmed by `sanitizeString`. -/
def wsChar (c : Char) : Bool :=
  c = ' ' || c = '\t' || c = '\r' || c = '\n'

/-- `sanitizeString` from `SystemInfoCollector.cpp`: empty input gives
`"N/A"`; otherwise invalid characters become spaces, the result is trimmed,
and an all-whitespace result gives `"N/A"`. -/
def sanitizeString (input : String) : String :=
  if input.isEmpty then "N/A"
  else
    let replaced := input.data.map (fun c => if keepChar c then c else ' ')
    let trimmed := ((replaced.dropWhile wsChar).reverse.dropWhile wsChar).reverse
    if trimmed.isEmpty then "N/A" else String.mk trimmed

/-- `safeWMIString`: a null/absent WMI VARIANT (or a conversion failure)
reads as `"N/A"`, a present one is sanitized. -/
def safeWMIString : Option String → String
  | none => "N/A"
  | some s => sanitizeString s

/-- `::tolower` on the ASCII range, as the source applies it to adapter
descriptions and GPU names. -/
def toLowerA (c : Char) : Char :=
  if 65 ≤ c.toNat && c.toNat ≤ 90 then Char.ofNat (c.toNat + 32) else c

def lowerStr (s : String) : String := String.mk (s.data.map toLowerA)

/-- Does `hay` start with `needle`? -/
def startsWithL : List Char → List Char → Bool
  | _, [] => true
  | [], _ :: _ => false
  | a :: as, b :: bs => a = b && startsWithL as bs

/-- `std::basic_string::find(needle) != npos`: does `needle` occur as a
contiguous run inside `hay`? -/
def containsL : List Char → List Char → Bool
  | hay, needle =>
      if startsWithL hay needle then true
      else
        match hay with
        | [] => false
        | _ :: t => containsL t needle

theorem startsWithL_iff (hay needle : List Char) :
    startsWithL hay needle = true ↔ ∃ t, hay = needle ++ t := by
  induction needle generalizing hay with
  | nil => simp [startsWithL]
  | cons b bs ih =>
      cases hay with
      | nil => simp [startsWithL]
      | cons a as =>
          simp only [startsWithL, Bool.and_eq_true, decide_eq_true_eq, ih, List.cons_append,
            List.cons.injEq]
          constructor
          · rintro ⟨rfl, t, rfl⟩
            exact ⟨t, rfl, rfl⟩
          · rintro ⟨t, rfl, rfl⟩
            exact ⟨rfl, t, rfl⟩

theorem containsL_iff (hay needle : List Char) :
    containsL hay needle = true ↔ ∃ p q, hay = p ++ needle ++ q := by
  induction hay with
  | nil =>
      cases needle with
      | nil => simp [containsL, startsWithL]
      | cons b bs =>
          constructor
          · intro h
            rw [containsL] at h
            simp [startsWithL] at h
          · rintro ⟨p, q, hpq⟩
            exfalso
            have := congrArg List.length hpq
            simp at this
            omega
  | cons a as ih =>
      rw [containsL]
      by_cases hs : startsWithL (a :: as) needle = true
      · rw [if_pos hs]
        obtain ⟨t, ht⟩ := (startsWithL_iff _ _).mp hs
        simp only [true_iff]
        exact ⟨[], t, by simpa using ht⟩
      · rw [if_neg hs]
        rw [ih]
        constructor
        · rintro ⟨p, q, rfl⟩
          exact ⟨a :: p, q, rfl⟩
        · rintro ⟨p, q, hpq⟩
          cases p with
          | nil =>
              exfalso
              apply hs
              rw [startsWithL_iff]
              exact ⟨q, by simpa using hpq⟩
          | cons x xs =>
              simp only [List.cons_append, List.cons.injEq] at hpq
              exact ⟨xs, q, hpq.2⟩

/-! ## Hex formatting and the 64-bit string hash

`std::hash<std::string>` on 64-bit MSVC is FNV-1a over the string's bytes;
`getDeviceId` feeds it ASCII data (serial, host name, decimal numbers).
Arithmetic is on `Nat` reduced mod `2 ^ 64`. -/

/-- UTF-8 encoding of one character, as the bytes of the `std::string`
hashed by `getDeviceId`. -/
def utf8Bytes (c : Char) : List Nat :=
  let n := c.toNat
  if n < 0x80 then [n]
  else if n < 0x800 then [0xC0 + n / 64, 0x80 + n % 64]
  else if n < 0x10000 then [0xE0 + n / 4096, 0x80 + (n / 64) % 64, 0x80 + n % 64]
  else [0xF0 + n / 262144, 0x80 + (n / 4096) % 64, 0x80 + (n / 64) % 64, 0x80 + n % 64]

/-- The bytes of a string. -/
def strBytes (s : String) : List Nat :=
  s.data.foldr (fun c acc => utf8Bytes c ++ acc) []

/-- 64-bit FNV-1a, the `std::hash<std::string>` of 64-bit MSVC. -/
def fnv1a64 (bytes : List Nat) : Nat :=
  bytes.foldl (fun h b => ((h ^^^ b) * 1099511628211) % 18446744073709551616)
    14695981039346656037

/-- One lowercase hex digit (`std::hex` output). -/
def hexDigit (n : Nat) : Char :=
  if n < 10 then Char.ofNat (48 + n) else Char.ofNat (87 + n)

/-- The hex digits of `n`, most significant first (`"0"` for zero, as
`std::hex` prints it). -/
def hexChars (n : Nat) : List Char :=
  if h : n < 16 then [hexDigit n]
  else hexChars (n / 16) ++ [hexDigit (n % 16)]
termination_by n
decreasing_by
  exact Nat.div_lt_self (by omega) (by omega)

/-- `std::setw(w)` with `std::setfill('0')` around a hex value. -/
def hexPad (w : Nat) (n : Nat) : String :=
  String.mk (List.replicate (w - (hexChars n).length) '0' ++ hexChars n)

theorem hexChars_length_le (w : Nat) : ∀ n : Nat, n < 16 ^ w → (hexChars n).length ≤ max w 1 := by
  induction w with
  | zero =>
      intro n hn
      interval_cases n
      simp [hexChars]
  | succ w ih =>
      intro n hn
      rw [hexChars]
      by_cases h : n < 16
      · simp [h]
      · rw [dif_neg h]
        have hdiv : n / 16 < 16 ^ w := by
          rw [Nat.div_lt_iff_lt_mul (by omega)]
          calc n < 16 ^ (w + 1) := hn
          _ = 16 ^ w * 16 := by ring
        have := ih (n / 16) hdiv
        simp only [List.length_append, List.length_singleton]
        have hw1 : 1 ≤ w := by
          by_contra hw
          have : w = 0 := by omega
          subst this
          simp at hdiv
          omega
        omega

theorem hexPad_length (w n : Nat) (h1 : n < 16 ^ w) (h2 : 1 ≤ w) :
    (hexPad w n).length = w := by
  have hle : (hexChars n).length ≤ w := by
    have := hexChars_length_le w n h1
    omega
  simp [hexPad, String.length, hle]

/-- Every character `hexChars` emits is a lowercase hex digit. -/
def isHexChar (c : Char) : Bool :=
  (48 ≤ c.toNat && c.toNat ≤ 57) || (97 ≤ c.toNat && c.toNat ≤ 102)

theorem isHexChar_hexDigit (n : Nat) (hlt : n < 16) : isHexChar (hexDigit n) = true := by
  interval_cases n <;> decide

theorem hexChars_all_hex (n : Nat) : ∀ c ∈ hexChars n, isHexChar c = true := by
  induction n using Nat.strong_induction_on with
  | _ n ih =>
      rw [hexChars]
      by_cases h : n < 16
      · rw [dif_pos h]
        intro c hc
        simp only [List.mem_singleton] at hc
        subst hc
        exact isHexChar_hexDigit n h
      · rw [dif_neg h]
        intro c hc
        rw [List.mem_append] at hc
        rcases hc with hc | hc
        · exact ih (n / 16) (Nat.div_lt_self (by omega) (by omega)) c hc
        · simp only [List.mem_singleton] at hc
          subst hc
          exact isHexChar_hexDigit _ (Nat.mod_lt _ (by omega))

theorem hexPad_all_hex (w n : Nat) : ∀ c ∈ (hexPad w n).data, isHexChar c = true := by
  intro c hc
  simp only [hexPad, List.mem_append] at hc
  rcases hc with hc | hc
  · have := List.eq_of_mem_replicate hc
    subst this
    decide
  · exact hexChars_all_hex n c hc

/-! ## Adapter environments and adapters

Each `get<Category>Info` adapter of `SystemInfoCollector.cpp` is a function
of an environment record describing the outcome of its native queries: an
`Option` field is `none` when the corresponding `Get`/API call failed or
returned a null VARIANT, and a `fault` flag models the adapter's guarded
body throwing at its query (the adapters catch `std::exception` around the
whole query-and-assemble block, log through `logError` and return the value
assembled so far, which at the query is still the initialized default).
Adapters whose catch handler is relevant to a claim return their log entries
(`Logger::error("SystemInfo", function + ": " + what)`) alongside the value;
the exception text is modelled by the function name. -/

abbrev LogEntry := String × String × String

def errLog (fn : String) : LogEntry := ("ERROR", "SystemInfo", fn)

/-! ### Motherboard (`getMotherboardInfo`) -/

structure MotherboardEnv where
  fault : Bool
  wmiOk : Bool
  product : Option String
  manufacturer : Option String
  boardSerial : Option String
  biosVersion : Option String
  biosSerial : Option String

/-- The five-field default `board_info` initializer. -/
def mbShape (product manufacturer biosVersion biosSerial boardSerial : String) : Json :=
  .obj (.cons "product_name" (.str product)
    (.cons "manufacturer" (.str manufacturer)
    (.cons "bios_version" (.str biosVersion)
    (.cons "bios_serial" (.str biosSerial)
    (.cons "board_serial" (.str boardSerial) .nil)))))

def mbDefault : Json := mbShape "N/A" "N/A" "N/A" "N/A" "N/A"

def getMotherboardInfo (env : MotherboardEnv) : Json × List LogEntry :=
  if env.fault then (mbDefault, [errLog "getMotherboardInfo"])
  else if !env.wmiOk then (mbDefault, [])
  else
    let b := mbDefault
    let b := match env.product with
      | some s => b.setKey "product_name" (.str (safeWMIString (some s)))
      | none => b
    let b := match env.manufacturer with
      | some s => b.setKey "manufacturer" (.str (safeWMIString (some s)))
      | none => b
    let b := match env.boardSerial with
      | some s => b.setKey "board_serial" (.str (safeWMIString (some s)))
      | none => b
    let b := match env.biosVersion with
      | some s => b.setKey "bios_version" (.str (safeWMIString (some s)))
      | none => b
    let b := match env.biosSerial with
      | some s => b.setKey "bios_serial" (.str (safeWMIString (some s)))
      | none => b
    (b, [])

/-! ### Audio (`getAudioInfo`) -/

structure AudioDev where
  name : Option String
  manufacturer : Option String

structure AudioEnv where
  fault : Bool
  wmiOk : Bool
  devices : List AudioDev

def audioJson (d : AudioDev) : Json :=
  (Json.null.setKey "name"
      (.str (match d.name with
        | some s => safeWMIString (some s)
        | none => "Unknown Audio Device"))).setKey "manufacturer"
      (.str (match d.manufacturer with
        | some s => safeWMIString (some s)
        | none => "N/A"))

def getAudioInfo (env : AudioEnv) : Json × List LogEntry :=
  if env.fault then (.arr [], [errLog "getAudioInfo"])
  else if !env.wmiOk then (.arr [], [])
  else (.arr (env.devices.map audioJson), [])

/-! ### CPU (`getCPUInfo`; dynamic tier, log entries not tracked) -/

structure CpuProc where
  name : Option String
  cores : Option Nat
  threads : Option Nat
  maxClock : Option Nat
  usageHund : Int

structure CpuEnv where
  fault : Bool
  wmiOk : Bool
  procs : List CpuProc

def cpuJson (p : CpuProc) : Json :=
  let j := Json.null
  let j := match p.name with
    | some s => j.setKey "name" (.str (safeWMIString (some s)))
    | none => j
  let j := j.setKey "cores" (.num (match p.cores with | some n => (n : Int) | none => 0))
  let j := j.setKey "threads" (.num (match p.threads with | some n => (n : Int) | none => 0))
  let j := j.setKey "clock_speed"
    (.str (match p.maxClock with | some n => toString n ++ " MHz" | none => "0 MHz"))
  j.setKey "usage" (.dbl p.usageHund)

def getCPUInfo (env : CpuEnv) : Json :=
  if env.fault then .arr []
  else if !env.wmiOk then .arr []
  else .arr (env.procs.map cpuJson)

/-! ### GPU (`getGPUInfo`) with the DXGI VRAM correlation -/

structure DxgiAdapter where
  descOk : Bool
  description : String
  dedicatedVideoMemory : Nat

structure GpuController where
  name : Option String
  driverVersion : Option String

structure GpuEnv where
  fault : Bool
  wmiOk : Bool
  controllers : List GpuController
  factoryOk : Bool
  adapters : List DxgiAdapter

/-- The source's match test: lowercase the adapter description and the GPU
name, then `find` each inside the other. -/
def gpuMatch (desc gpuName : String) : Bool :=
  containsL (lowerStr desc).data (lowerStr gpuName).data ||
  containsL (lowerStr gpuName).data (lowerStr desc).data

/-- The `EnumAdapters` loop: first adapter whose description matches wins
(`break`); adapters whose `GetDesc` fails are passed over. -/
def findVram (gpuName : String) : List DxgiAdapter → Option Nat
  | [] => none
  | a :: rest =>
      if a.descOk && gpuMatch a.description gpuName then some a.dedicatedVideoMemory
      else findVram gpuName rest

/-- Bytes to hundredths of a GiB.  The C++ divides by `1024^3` as a double
and rounds/formats to two decimals; it is modelled as exact rational
rounding (half up) to the nearest hundredth. -/
def centiFromBytes (bytes : Nat) : Nat := (bytes * 100 + 536870912) / 1073741824

/-- Rendering of a two-decimal fixed value (`std::fixed << setprecision(2)`). -/
def fmtCenti (h : Nat) : String :=
  toString (h / 100) ++ "." ++
    (if h % 100 < 10 then "0" ++ toString (h % 100) else toString (h % 100))

def gpuJson (env : GpuEnv) (c : GpuController) : Json :=
  let gpuName := match c.name with | some s => s | none => ""
  let j := Json.null
  let j := j.setKey "name"
    (.str (match c.name with | some s => safeWMIString (some s) | none => "N/A"))
  let j := j.setKey "driver_version"
    (.str (match c.driverVersion with | some s => safeWMIString (some s) | none => "N/A"))
  let j := j.setKey "vram_total" (.str "N/A")
  if env.factoryOk then
    match findVram gpuName env.adapters with
    | some bytes => j.setKey "vram_total" (.str (fmtCenti (centiFromBytes bytes)))
    | none => j
  else j

def getGPUInfo (env : GpuEnv) : Json × List LogEntry :=
  if env.fault then (.arr [], [errLog "getGPUInfo"])
  else if !env.wmiOk then (.arr [], [])
  else (.arr (env.controllers.map (gpuJson env)), [])

/-! ### Memory (`getMemoryInfo`; dynamic tier) -/

structure MemSlot where
  capacityBytes : Option Nat
  speed : Option Nat
  deviceLocator : Option String
  manufacturer : Option String

structure MemoryEnv where
  totalPhysBytes : Nat
  availPhysBytes : Nat
  memoryLoad : Nat
  wmiOk : Bool
  slots : List MemSlot

def slotJson (s : MemSlot) : Json :=
  let j := Json.null
  let j := match s.capacityBytes with
    | some b => j.setKey "capacity" (.str (toString (b / 1073741824)))
    | none => j
  let j := j.setKey "speed"
    (match s.speed with | some v => .str (toString v) | none => .str "N/A MHz")
  let j := j.setKey "slot"
    (.str (match s.deviceLocator with | some x => safeWMIString (some x) | none => "Unknown Slot"))
  j.setKey "manufacturer"
    (.str (match s.manufacturer with | some x => safeWMIString (some x) | none => "N/A"))

/-- `getMemoryInfo`: when the WMI service is unavailable the record is
returned early, before the `slots` and `total_capacity` keys are added. -/
def getMemoryInfo (env : MemoryEnv) : Json :=
  let m := (((Json.null.setKey "total" (.dbl (centiFromBytes env.totalPhysBytes))).setKey
      "available" (.dbl (centiFromBytes env.availPhysBytes))).setKey
      "used" (.dbl (centiFromBytes (env.totalPhysBytes - env.availPhysBytes)))).setKey
      "percent" (.num env.memoryLoad)
  if !env.wmiOk then m
  else
    let totalCapGB := (env.slots.foldl (fun acc s => acc + s.capacityBytes.getD 0) 0) / 1073741824
    (m.setKey "slots" (.arr (env.slots.map slotJson))).setKey "total_capacity"
      (.str (toString totalCapGB ++ " GB"))

/-! ### Storage (`getStorageInfo`; dynamic tier) with the physical-disk map -/

structure PhysDisk where
  deviceID : Option String
  model : Option String
  interfaceType : Option String
  logicalDrives : List String

structure Volume where
  deviceID : Option String
  driveType : Option Int
  sizeBytes : Option Nat
  freeBytes : Option Nat
  volumeName : Option String

structure StorageEnv where
  fault : Bool
  wmiOk : Bool
  disks : List PhysDisk
  volumes : List Volume

def diskJson (d : PhysDisk) : Json :=
  let j := Json.null
  let j := match d.model with
    | some s => j.setKey "model" (.str (safeWMIString (some s)))
    | none => j
  match d.interfaceType with
  | some s => j.setKey "interface" (.str (safeWMIString (some s)))
  | none => j

/-- The `physicalDisks` map: for each physical disk, every logical drive
reached through the disk→partition→volume associations is mapped to that
disk's record (`physicalDisks[logicalDrive] = disk_info`). -/
def buildPhysMap (disks : List PhysDisk) : JObj :=
  disks.foldl
    (fun mp d => d.logicalDrives.foldl (fun mp2 ld => mp2.set ld (diskJson d)) mp) .nil

/-- `json == "literal"`: true only for an equal string value (a missing
`type` key reads back as null and compares unequal). -/
def Json.eqStr (j : Json) (s : String) : Bool :=
  match j with
  | .str t => t = s
  | _ => false

/-- Enrichment of one `Win32_LogicalDisk` row. -/
def volJson (mp : JObj) (v : Volume) : Json :=
  let driveId := match v.deviceID with | some s => s | none => ""
  let j := Json.null
  let j := match v.deviceID with
    | some s => j.setKey "drive" (.str (safeWMIString (some s)))
    | none => j
  let j := match v.driveType with
    | some t => j.setKey "type" (.str (if t = 3 then "Local Disk" else "Removable Disk"))
    | none => j
  let j := match v.sizeBytes with
    | some b => j.setKey "size" (.dbl (centiFromBytes b))
    | none => j
  let j := match v.freeBytes with
    | some b => j.setKey "free" (.dbl (centiFromBytes b))
    | none => j
  if (j.getKeyD "type").eqStr "Local Disk" then
    match mp.get driveId with
    | some di => (j.setKey "model" (di.getKeyD "model")).setKey "interface" (di.getKeyD "interface")
    | none => (j.setKey "model" (.str "Unknown Disk")).setKey "interface" (.str "Unknown")
  else
    let j2 := match v.volumeName with
      | some nm => j.setKey "model" (.str (safeWMIString (some nm)))
      | none => j.setKey "model" (.str "Removable Disk")
    j2.setKey "interface" (.str "USB")

def getStorageInfo (env : StorageEnv) : Json :=
  if env.fault then .arr []
  else if !env.wmiOk then .arr []
  else .arr (env.volumes.map (volJson (buildPhysMap env.disks)))

/-! ### Network (`getNetworkInfo`) -/

structure NetAdapter where
  description : String
  adapterName : String
  ipAddress : String
  ifType : Nat

structure NetworkEnv where
  firstAllocOk : Bool
  overflowed : Bool
  secondAllocOk : Bool
  queryOk : Bool
  adapters : List NetAdapter

def isVirtualAdapter (a : NetAdapter) : Bool :=
  let d := (lowerStr a.description).data
  containsL d "virtual".data || containsL d "pseudo".data ||
  containsL d "loopback".data || containsL d "microsoft".data

def netEntry (a : NetAdapter) : Json :=
  (((Json.null.setKey "name" (.str (sanitizeString a.description))).setKey
      "mac_address" (.str (sanitizeString a.adapterName))).setKey
      "ip_address" (.str (if a.ipAddress ≠ "0.0.0.0" then a.ipAddress else "N/A"))).setKey
      "status" (.str (if a.ipAddress ≠ "0.0.0.0" then "Connected" else "Not Connected"))

def netFold (acc : List Json × List Json) (a : NetAdapter) : List Json × List Json :=
  if isVirtualAdapter a then acc
  else if a.ifType = 6 then (acc.1 ++ [netEntry a], acc.2)
  else if a.ifType = 71 then (acc.1, acc.2 ++ [netEntry a])
  else acc

/-- `getNetworkInfo`: if either buffer allocation fails the function returns
the default-constructed `result` — a null json, with no `ethernet` or `wlan`
key ever added. -/
def getNetworkInfo (env : NetworkEnv) : Json :=
  if !env.firstAllocOk then .null
  else if env.overflowed && !env.secondAllocOk then .null
  else
    let p := if env.queryOk then env.adapters.foldl netFold ([], []) else ([], [])
    (Json.null.setKey "ethernet" (.arr p.1)).setKey "wlan" (.arr p.2)

/-! ### Battery (`getBatteryInfo`) -/

structure PowerStatus where
  acLineStatus : Nat
  batteryFlag : Nat
  batteryLifePercent : Nat

structure BatteryEnv where
  status : Option PowerStatus

def getBatteryInfo (env : BatteryEnv) : Json :=
  let b0 : Json :=
    .obj (.cons "percent" (.num 100)
      (.cons "power_plugged" (.bool true)
      (.cons "is_desktop" (.bool true) .nil)))
  match env.status with
  | none => b0
  | some ps =>
      let b1 := if ps.batteryLifePercent ≠ 255 then
          (b0.setKey "percent" (.num ps.batteryLifePercent)).setKey "is_desktop" (.bool false)
        else b0
      let b2 := b1.setKey "power_plugged" (.bool (ps.acLineStatus = 1))
      if ps.batteryFlag = 128 || ps.batteryFlag = 255 ||
          (ps.batteryLifePercent = 255 && ps.batteryFlag = 1) then
        ((b2.setKey "is_desktop" (.bool true)).setKey "percent" (.num 100)).setKey
          "power_plugged" (.bool true)
      else b2

/-! ### Device name and device id -/

/-- `getDeviceName`: sanitized computer name, `"Unknown"` if the API fails. -/
def getDeviceName (hostname : Option String) : String :=
  match hostname with
  | some s => sanitizeString s
  | none => "Unknown"

structure DeviceIdEnv where
  fault : Bool
  serial : Option String
  computerName : Option String
  processorType : Nat
  numProcessors : Nat

/-- The fingerprint `baseInfo`: board serial (when the WMI chain yielded
one), computer name (when `GetComputerNameA` succeeded), then the decimal
processor type and logical-processor count. -/
def deviceIdBase (env : DeviceIdEnv) : String :=
  (match env.serial with | some s => s | none => "") ++
  (match env.computerName with | some s => s | none => "") ++
  toString env.processorType ++ toString env.numProcessors

/-- The five hex groups sliced out of the same 64-bit hash:
`hash & 0xFFFFFFFF`, `(hash >> 16) & 0xFFFF`, `(hash >> 32) & 0xFFFF`,
`(hash >> 48) & 0xFFFF`, `hash & 0xFFFFFFFFFFFF`, zero-padded to widths
8, 4, 4, 4, 12. -/
def deviceIdFormat (h : Nat) : String :=
  hexPad 8 (h % 4294967296) ++ "-" ++
  hexPad 4 ((h / 65536) % 65536) ++ "-" ++
  hexPad 4 ((h / 4294967296) % 65536) ++ "-" ++
  hexPad 4 ((h / 281474976710656) % 65536) ++ "-" ++
  hexPad 12 (h % 281474976710656)

/-- `getDeviceId`: hash-and-format the fingerprint; if the guarded body
throws, fall back to the raw (unsanitized, unhashed) computer name. -/
def getDeviceId (env : DeviceIdEnv) : String × List LogEntry :=
  if env.fault then
    ((match env.computerName with | some s => s | none => ""), [errLog "getDeviceId"])
  else
    (deviceIdFormat (fnv1a64 (strBytes (deviceIdBase env))), [])

/-! ## The collector state machine

The mutable statics of `SystemInfoCollector` (`cachedStaticInfo`,
`cachedDynamicInfo`, `lastStaticUpdate`, the `running` flag, and
`updateSlowData`'s function-local `lastSlowUpdate`) become an explicit
state record.  Time is the steady clock in milliseconds;
`duration_cast<seconds>` is division by 1000.  `staticCalls` instruments
the state with the number of static-adapter invocations, to make
"no re-invocation of the five static adapters" observable.  The unused
`lastDynamicUpdate` static is not modelled. -/

structure CState where
  cachedStaticInfo : Json
  cachedDynamicInfo : Json
  lastStaticUpdate : Nat
  slowLast : Option Nat
  running : Bool
  staticCalls : Nat

/-- The statics at process start: default-constructed (null) jsons, epoch
time point, `running = true`, `lastSlowUpdate` not yet initialized. -/
def initState : CState :=
  { cachedStaticInfo := .null, cachedDynamicInfo := .null, lastStaticUpdate := 0,
    slowLast := none, running := true, staticCalls := 0 }

structure Env where
  deviceId : DeviceIdEnv
  hostname : Option String
  motherboard : MotherboardEnv
  gpu : GpuEnv
  audio : AudioEnv
  cpu : CpuEnv
  memory : MemoryEnv
  storage : StorageEnv
  battery : BatteryEnv
  network : NetworkEnv

/-- The five static-tier assignments shared verbatim by `initializeCache`
and the expiry branch of `getSystemInfo`. -/
def refreshStatic (env : Env) (now : Nat) (s : CState) : CState × List LogEntry :=
  let did := getDeviceId env.deviceId
  let mb := getMotherboardInfo env.motherboard
  let gp := getGPUInfo env.gpu
  let au := getAudioInfo env.audio
  let stat := ((((s.cachedStaticInfo.setKey "deviceId" (.str did.1)).setKey
      "deviceName" (.str (getDeviceName env.hostname))).setKey
      "motherboard" mb.1).setKey
      "gpu" gp.1).setKey
      "audio" au.1
  ({ s with cachedStaticInfo := stat, lastStaticUpdate := now,
            staticCalls := s.staticCalls + 5 },
   did.2 ++ mb.2 ++ gp.2 ++ au.2)

/-- `updateFastData`: storage, battery and network written unconditionally. -/
def updateFastData (env : Env) (s : CState) : CState :=
  let dyn := ((s.cachedDynamicInfo.setKey "storage" (getStorageInfo env.storage)).setKey
      "battery" (getBatteryInfo env.battery)).setKey
      "network" (getNetworkInfo env.network)
  { s with cachedDynamicInfo := dyn }

/-- `updateSlowData`: the function-local static `lastSlowUpdate` is
initialized to `now` on the first call; cpu and memory are written only when
at least one second has elapsed against it, and only then is it advanced. -/
def updateSlowData (env : Env) (now : Nat) (s : CState) : CState :=
  if (now - s.slowLast.getD now) / 1000 ≥ 1 then
    { s with cachedDynamicInfo := ((s.cachedDynamicInfo.setKey "cpu" (getCPUInfo env.cpu)).setKey "memory" (getMemoryInfo env.memory)), slowLast := some now }
  else { s with slowLast := some (s.slowLast.getD now) }

/-- One iteration of the background `updateDynamicDataThread` loop body:
fast data, then slow data, under the cache lock. -/
def iteration (env : Env) (now : Nat) (s : CState) : CState :=
  updateSlowData env now (updateFastData env s)

def runIters : List (Env × Nat) → CState → CState
  | [], s => s
  | p :: rest, s => runIters rest (iteration p.1 p.2 s)

/-- `initializeCache`: populate the static tier, then both dynamic cadences
once, and start the update thread. -/
def initializeCache (env : Env) (now : Nat) (s : CState) : CState × List LogEntry :=
  let r := refreshStatic env now s
  let s2 := updateFastData env r.1
  let s3 := updateSlowData env now s2
  (s3, r.2)

def staticExpired (s : CState) (now : Nat) : Bool :=
  s.cachedStaticInfo.isEmptyJ || decide ((now - s.lastStaticUpdate) / 1000 ≥ 60)

/-- `getSystemInfo`: under the lock, re-populate the static tier when it is
empty or expired, then merge the dynamic tier first and the static tier
second into a fresh (null) json. -/
def getSystemInfo (env : Env) (now : Nat) (s : CState) : Json × CState × List LogEntry :=
  let r := if staticExpired s now then refreshStatic env now s else (s, [])
  let info := Json.mergePatch (Json.mergePatch .null r.1.cachedDynamicInfo) r.1.cachedStaticInfo
  (info, r.1, r.2)

/-- `cleanup`: clear the running flag and join the thread (if joinable);
returns normally whatever the current state. -/
def cleanup (s : CState) : CState := { s with running := false }

/-- Collector states reachable through the public lifecycle: initialization,
background-loop iterations, snapshot reads, shutdown. -/
inductive Reach : CState → Prop where
  | init : ∀ env t, Reach (initializeCache env t initState).1
  | iter : ∀ s env t, Reach s → Reach (iteration env t s)
  | read : ∀ s env t, Reach s → Reach (getSystemInfo env t s).2.1
  | stop : ∀ s, Reach s → Reach (cleanup s)

/-! ### Tier-shape invariants -/

def dynCategoryKeys : List String := ["storage", "battery", "network", "cpu", "memory"]

def staticCategoryKeys : List String := ["deviceId", "deviceName", "motherboard", "gpu", "audio"]

/-- The shape of the static tier as written by `refreshStatic`. -/
def staticShape (d n : String) (mb g a : Json) : Json :=
  .obj (.cons "deviceId" (.str d)
    (.cons "deviceName" (.str n)
    (.cons "motherboard" mb
    (.cons "gpu" g
    (.cons "audio" a .nil)))))

/-- Dynamic-tier keys are always among the five dynamic categories. -/
def DynKeysOK (s : CState) : Prop :=
  ∀ k ∈ s.cachedDynamicInfo.keysOf, k ∈ dynCategoryKeys

/-- The static tier always holds the five static categories, with a
five-string-field motherboard record and array-valued gpu and audio. -/
def StaticShaped (s : CState) : Prop :=
  ∃ d n p m bv bs br g a,
    s.cachedStaticInfo = staticShape d n (mbShape p m bv bs br) (.arr g) (.arr a)

/-! ### Key-tracking lemmas -/

theorem JObj.get_del_self (o : JObj) (k : String) : (o.del k).get k = none := by
  induction o using JObj.inductionOn with
  | h0 => simp [JObj.del, JObj.get]
  | h1 k1 w rest ih =>
      by_cases h1 : k1 = k
      · simp [JObj.del, h1, ih]
      · simp [JObj.del, JObj.get, h1, ih]

theorem Json.lookup_eraseKey_self (j : Json) (k : String) :
    (j.eraseKey k).lookup k = none := by
  cases j <;> simp [Json.eraseKey, Json.lookup, JObj.get_del_self]

theorem JObj.get_none_iff_notin (o : JObj) (k : String) :
    o.get k = none ↔ k ∉ o.keys := by
  induction o using JObj.inductionOn with
  | h0 => simp [JObj.get, JObj.keys]
  | h1 k1 w rest ih =>
      by_cases h1 : k1 = k
      · simp [JObj.get, JObj.keys, h1]
      · simp only [JObj.get, if_neg h1, JObj.keys, List.mem_cons, ih]
        constructor
        · rintro h2 (h3 | h3)
          · exact h1 (Eq.symm h3)
          · exact h2 h3
        · intro h2
          exact fun h3 => h2 (Or.inr h3)

theorem Json.lookup_none_of_notin (j : Json) (k : String) (h : k ∉ j.keysOf) :
    j.lookup k = none := by
  cases j <;> simp_all [Json.lookup, Json.keysOf, JObj.get_none_iff_notin]

theorem JObj.keys_set_sub (o : JObj) (key k : String) (v : Json)
    (h : k ∈ (o.set key v).keys) : k = key ∨ k ∈ o.keys := by
  induction o using JObj.inductionOn with
  | h0 => simp [JObj.set, JObj.keys] at h; exact Or.inl h
  | h1 k1 w rest ih =>
      by_cases h1 : k1 = key
      · simp only [JObj.set, if_pos h1, JObj.keys, List.mem_cons] at h
        rcases h with h | h
        · exact Or.inr (by simp [JObj.keys, h])
        · exact Or.inr (by simp [JObj.keys, h])
      · simp only [JObj.set, if_neg h1, JObj.keys, List.mem_cons] at h
        rcases h with h | h
        · exact Or.inr (by simp [JObj.keys, h])
        · rcases ih h with h2 | h2
          · exact Or.inl h2
          · exact Or.inr (by simp [JObj.keys, h2])

theorem Json.keysOf_setKey_sub (j : Json) (key k : String) (v : Json)
    (h : k ∈ (j.setKey key v).keysOf) : k = key ∨ k ∈ j.keysOf := by
  cases j <;> simp_all [Json.setKey, Json.keysOf, JObj.keys]
  case obj es => exact JObj.keys_set_sub es key k v h

/-! ### The central merge lookup lemma -/

theorem Json.getKeyD_setKey_ne (j : Json) (k key : String) (v : Json) (h : k ≠ key) :
    (j.setKey key v).getKeyD k = j.getKeyD k := by
  simp [Json.getKeyD, Json.lookup_setKey_ne _ _ _ _ h]

theorem Json.getKeyD_eraseKey_ne (j : Json) (k key : String) (h : k ≠ key) :
    (j.eraseKey key).getKeyD k = j.getKeyD k := by
  simp [Json.getKeyD, Json.lookup_eraseKey_ne _ _ _ h]

/-- The value the object-merging loop leaves at a key the patch binds
(needs the patch keys to be duplicate-free, which holds of every object the
program builds): a null patch value erases the key, any other patch value is
itself merge-patched over the target's value at that key. -/
theorem Json.lookup_mergeIntoObj_get (es : JObj) (t : Json) (k : String) (v : Json)
    (hd : es.keys.Nodup) (hv : es.get k = some v) :
    (Json.mergeIntoObj t es).lookup k =
      if v.isNullB then none else some (Json.mergePatch (t.getKeyD k) v) := by
  induction es using JObj.inductionOn generalizing t with
  | h0 => simp [JObj.get] at hv
  | h1 k1 v1 rest ih =>
      rw [Json.mergeIntoObj_cons]
      simp only [JObj.keys, List.nodup_cons] at hd
      by_cases hk : k1 = k
      · subst hk
        rw [JObj.get, if_pos rfl] at hv
        have hv2 : v1 = v := by injection hv
        rw [hv2]
        by_cases hn : v.isNullB = true
        · rw [if_pos hn, if_pos hn,
            Json.lookup_mergeIntoObj_notin _ _ _ hd.1, Json.lookup_eraseKey_self]
        · rw [if_neg hn, if_neg hn,
            Json.lookup_mergeIntoObj_notin _ _ _ hd.1, Json.lookup_setKey_self]
      · rw [JObj.get, if_neg hk] at hv
        by_cases hn1 : v1.isNullB = true
        · rw [if_pos hn1, ih (t.eraseKey k1) hd.2 hv,
            Json.getKeyD_eraseKey_ne _ _ _ (fun h => hk (Eq.symm h))]
        · rw [if_neg hn1, ih _ hd.2 hv,
            Json.getKeyD_setKey_ne _ _ _ _ (fun h => hk (Eq.symm h))]

theorem Json.keysOf_eraseKey_sub (j : Json) (key k : String)
    (h : k ∈ (j.eraseKey key).keysOf) : k ∈ j.keysOf := by
  cases j <;> simp_all [Json.eraseKey, Json.keysOf]
  case obj es =>
    induction es using JObj.inductionOn with
    | h0 => simpa [JObj.del, JObj.keys] using h
    | h1 k1 w rest ih =>
        by_cases h1 : k1 = key
        · simp only [JObj.del, if_pos h1] at h
          simp [JObj.keys, ih h]
        · simp only [JObj.del, if_neg h1, JObj.keys, List.mem_cons] at h
          rcases h with h | h
          · simp [JObj.keys, h]
          · simp [JObj.keys, ih h]

theorem Json.keysOf_mergeIntoObj_sub (es : JObj) (t : Json) (k : String)
    (h : k ∈ (Json.mergeIntoObj t es).keysOf) : k ∈ t.keysOf ∨ k ∈ es.keys := by
  induction es using JObj.inductionOn generalizing t with
  | h0 => exact Or.inl (by simpa [Json.mergeIntoObj] using h)
  | h1 k1 v rest ih =>
      rw [Json.mergeIntoObj_cons] at h
      by_cases hn : v.isNullB = true
      · rw [if_pos hn] at h
        rcases ih _ h with h2 | h2
        · exact Or.inl (Json.keysOf_eraseKey_sub _ _ _ h2)
        · exact Or.inr (by simp [JObj.keys, h2])
      · rw [if_neg hn] at h
        rcases ih _ h with h2 | h2
        · rcases Json.keysOf_setKey_sub _ _ _ _ h2 with h3 | h3
          · exact Or.inr (by simp [JObj.keys, h3])
          · exact Or.inl h3
        · exact Or.inr (by simp [JObj.keys, h2])

/-! ### Adapter output shapes -/

theorem getMotherboardInfo_shape (env : MotherboardEnv) :
    ∃ p m bv bs br, (getMotherboardInfo env).1 = mbShape p m bv bs br := by
  rcases env with ⟨f, w, p, m, bs, bv, bsr⟩
  cases f
  · cases w
    · exact ⟨_, _, _, _, _, rfl⟩
    · cases p <;> cases m <;> cases bs <;> cases bv <;> cases bsr <;>
        exact ⟨_, _, _, _, _, rfl⟩
  · exact ⟨_, _, _, _, _, rfl⟩

theorem getGPUInfo_arr (env : GpuEnv) : ∃ l, (getGPUInfo env).1 = .arr l := by
  rcases env with ⟨f, w, cs, fo, as⟩
  cases f
  · cases w
    · exact ⟨_, rfl⟩
    · exact ⟨_, rfl⟩
  · exact ⟨_, rfl⟩

theorem getAudioInfo_arr (env : AudioEnv) : ∃ l, (getAudioInfo env).1 = .arr l := by
  rcases env with ⟨f, w, ds⟩
  cases f
  · cases w
    · exact ⟨_, rfl⟩
    · exact ⟨_, rfl⟩
  · exact ⟨_, rfl⟩

/-! ### The reachability invariant -/

def IsStaticShape (j : Json) : Prop :=
  ∃ d n p m bv bs br g a,
    j = staticShape d n (mbShape p m bv bs br) (.arr g) (.arr a)

theorem refreshStatic_shape (env : Env) (now : Nat) (s : CState)
    (hs : s.cachedStaticInfo = .null ∨ IsStaticShape s.cachedStaticInfo) :
    IsStaticShape ((refreshStatic env now s).1.cachedStaticInfo) := by
  obtain ⟨p, m, bv, bs2, br, hmb⟩ := getMotherboardInfo_shape env.motherboard
  obtain ⟨lg, hg⟩ := getGPUInfo_arr env.gpu
  obtain ⟨la, ha⟩ := getAudioInfo_arr env.audio
  unfold refreshStatic
  rcases hs with h | ⟨d0, n0, p0, m0, bv0, bs0, br0, g0, a0, h⟩ <;>
    · simp only [h, hmb, hg, ha]
      exact ⟨_, _, _, _, _, _, _, _, _, rfl⟩

theorem refreshStatic_dyn (env : Env) (now : Nat) (s : CState) :
    (refreshStatic env now s).1.cachedDynamicInfo = s.cachedDynamicInfo := rfl

theorem refreshStatic_last (env : Env) (now : Nat) (s : CState) :
    (refreshStatic env now s).1.lastStaticUpdate = now := rfl

theorem refreshStatic_calls (env : Env) (now : Nat) (s : CState) :
    (refreshStatic env now s).1.staticCalls = s.staticCalls + 5 := rfl

theorem updateFastData_dynKeys (env : Env) (s : CState) (h : DynKeysOK s) :
    DynKeysOK (updateFastData env s) := by
  intro k hk
  simp only [updateFastData] at hk
  rcases Json.keysOf_setKey_sub _ _ _ _ hk with rfl | hk
  · simp [dynCategoryKeys]
  rcases Json.keysOf_setKey_sub _ _ _ _ hk with rfl | hk
  · simp [dynCategoryKeys]
  rcases Json.keysOf_setKey_sub _ _ _ _ hk with rfl | hk
  · simp [dynCategoryKeys]
  exact h k hk

theorem updateSlowData_dynKeys (env : Env) (now : Nat) (s : CState) (h : DynKeysOK s) :
    DynKeysOK (updateSlowData env now s) := by
  intro k hk
  unfold updateSlowData at hk
  split at hk
  · simp only at hk
    rcases Json.keysOf_setKey_sub _ _ _ _ hk with rfl | hk
    · simp [dynCategoryKeys]
    rcases Json.keysOf_setKey_sub _ _ _ _ hk with rfl | hk
    · simp [dynCategoryKeys]
    exact h k hk
  · exact h k hk

theorem updateSlowData_static (env : Env) (now : Nat) (s : CState) :
    (updateSlowData env now s).cachedStaticInfo = s.cachedStaticInfo := by
  unfold updateSlowData
  split <;> rfl

theorem updateSlowData_last (env : Env) (now : Nat) (s : CState) :
    (updateSlowData env now s).lastStaticUpdate = s.lastStaticUpdate := by
  unfold updateSlowData
  split <;> rfl

theorem updateSlowData_calls (env : Env) (now : Nat) (s : CState) :
    (updateSlowData env now s).staticCalls = s.staticCalls := by
  unfold updateSlowData
  split <;> rfl

theorem iteration_static (env : Env) (now : Nat) (s : CState) :
    (iteration env now s).cachedStaticInfo = s.cachedStaticInfo := by
  unfold iteration
  rw [updateSlowData_static]
  rfl

theorem iteration_last (env : Env) (now : Nat) (s : CState) :
    (iteration env now s).lastStaticUpdate = s.lastStaticUpdate := by
  unfold iteration
  rw [updateSlowData_last]
  rfl

theorem iteration_calls (env : Env) (now : Nat) (s : CState) :
    (iteration env now s).staticCalls = s.staticCalls := by
  unfold iteration
  rw [updateSlowData_calls]
  rfl

theorem runIters_static (its : List (Env × Nat)) (s : CState) :
    (runIters its s).cachedStaticInfo = s.cachedStaticInfo ∧
    (runIters its s).lastStaticUpdate = s.lastStaticUpdate ∧
    (runIters its s).staticCalls = s.staticCalls := by
  induction its generalizing s with
  | nil => exact ⟨rfl, rfl, rfl⟩
  | cons p rest ih =>
      have h := ih (iteration p.1 p.2 s)
      simp only [runIters] at *
      rw [h.1, h.2.1, h.2.2, iteration_static, iteration_last, iteration_calls]
      exact ⟨rfl, rfl, rfl⟩

theorem getSystemInfo_state (env : Env) (now : Nat) (s : CState) :
    (getSystemInfo env now s).2.1 =
      if staticExpired s now then (refreshStatic env now s).1 else s := by
  unfold getSystemInfo
  split <;> rfl

theorem getSystemInfo_fst (env : Env) (now : Nat) (s : CState) :
    (getSystemInfo env now s).1 =
      Json.mergePatch (Json.mergePatch .null (getSystemInfo env now s).2.1.cachedDynamicInfo)
        (getSystemInfo env now s).2.1.cachedStaticInfo := rfl

theorem reach_inv (s : CState) (h : Reach s) :
    IsStaticShape s.cachedStaticInfo ∧ DynKeysOK s := by
  induction h with
  | init env t =>
      constructor
      · unfold initializeCache
        have h1 := updateSlowData_static env t (updateFastData env (refreshStatic env t initState).1)
        simp only [h1]
        have h2 : (updateFastData env (refreshStatic env t initState).1).cachedStaticInfo
            = (refreshStatic env t initState).1.cachedStaticInfo := rfl
        rw [h2]
        exact refreshStatic_shape env t initState (Or.inl rfl)
      · unfold initializeCache
        apply updateSlowData_dynKeys
        apply updateFastData_dynKeys
        intro k hk
        simp [refreshStatic_dyn, initState, Json.keysOf] at hk
  | iter s env t hs ih =>
      constructor
      · rw [iteration_static]
        exact ih.1
      · unfold iteration
        exact updateSlowData_dynKeys _ _ _ (updateFastData_dynKeys _ _ ih.2)
  | read s env t hs ih =>
      rw [getSystemInfo_state]
      by_cases hc : staticExpired s t = true
      · constructor
        · rw [if_pos hc]
          exact refreshStatic_shape env t s (Or.inr ih.1)
        · rw [if_pos hc]
          intro k hk
          rw [refreshStatic_dyn] at hk
          exact ih.2 k hk
      · rw [if_neg hc]
        exact ih
  | stop s hs ih => exact ih

/-! ### Merging the static tier over the dynamic tier -/

theorem Json.mergePatch_str (t : Json) (s : String) : Json.mergePatch t (.str s) = .str s := rfl

theorem Json.mergePatch_arr (t : Json) (l : List Json) : Json.mergePatch t (.arr l) = .arr l := rfl

theorem Json.mergePatch_null_mbShape (p m bv bs br : String) :
    Json.mergePatch .null (mbShape p m bv bs br) = mbShape p m bv bs br := rfl

theorem Json.lookup_some_mem (j : Json) (k : String) (v : Json)
    (h : j.lookup k = some v) : k ∈ j.keysOf := by
  by_contra hk
  rw [Json.lookup_none_of_notin j k hk] at h
  exact Option.noConfusion h

/-- What each key of the merged snapshot reads as, when the static tier has
the shape `refreshStatic` writes: every static category holds exactly the
static tier's value (the static tier wins), and every other key reads
through to the dynamic side. -/
theorem lookup_merge_staticShape (m : Json) (hmb : m.lookup "motherboard" = none)
    (d n p mm bv bs br : String) (g a : List Json) :
    (Json.mergePatch m (staticShape d n (mbShape p mm bv bs br) (.arr g) (.arr a))).lookup
        "deviceId" = some (.str d) ∧
    (Json.mergePatch m (staticShape d n (mbShape p mm bv bs br) (.arr g) (.arr a))).lookup
        "deviceName" = some (.str n) ∧
    (Json.mergePatch m (staticShape d n (mbShape p mm bv bs br) (.arr g) (.arr a))).lookup
        "motherboard" = some (mbShape p mm bv bs br) ∧
    (Json.mergePatch m (staticShape d n (mbShape p mm bv bs br) (.arr g) (.arr a))).lookup
        "gpu" = some (.arr g) ∧
    (Json.mergePatch m (staticShape d n (mbShape p mm bv bs br) (.arr g) (.arr a))).lookup
        "audio" = some (.arr a) ∧
    (∀ k, k ∉ staticCategoryKeys →
      (Json.mergePatch m (staticShape d n (mbShape p mm bv bs br) (.arr g) (.arr a))).lookup
        k = m.lookup k) := by
  have ht : ∀ k, (if m.isObjB then m else Json.obj .nil).lookup k = m.lookup k := by
    intro k
    cases m <;> simp [Json.isObjB, Json.lookup, JObj.get]
  have hmerge : Json.mergePatch m (staticShape d n (mbShape p mm bv bs br) (.arr g) (.arr a))
      = Json.mergeIntoObj (if m.isObjB then m else Json.obj .nil)
          (.cons "deviceId" (.str d) (.cons "deviceName" (.str n)
            (.cons "motherboard" (mbShape p mm bv bs br)
            (.cons "gpu" (.arr g) (.cons "audio" (.arr a) .nil))))) := rfl
  have hd2 : (JObj.cons "deviceId" (Json.str d) (.cons "deviceName" (.str n)
      (.cons "motherboard" (mbShape p mm bv bs br)
      (.cons "gpu" (.arr g) (.cons "audio" (.arr a) .nil))))).keys.Nodup := by
    simp only [JObj.keys]
    decide
  have hmbD : (if m.isObjB then m else Json.obj .nil).getKeyD "motherboard" = Json.null := by
    simp [Json.getKeyD, ht, hmb]
  refine ⟨?_, ?_, ?_, ?_, ?_, ?_⟩
  · rw [hmerge, Json.lookup_mergeIntoObj_get _ _ "deviceId" (.str d) hd2 rfl]
    rfl
  · rw [hmerge, Json.lookup_mergeIntoObj_get _ _ "deviceName" (.str n) hd2 rfl]
    rfl
  · rw [hmerge,
      Json.lookup_mergeIntoObj_get _ _ "motherboard" (mbShape p mm bv bs br) hd2 rfl, hmbD]
    rw [Json.mergePatch_null_mbShape]
    rfl
  · rw [hmerge, Json.lookup_mergeIntoObj_get _ _ "gpu" (.arr g) hd2 rfl]
    rfl
  · rw [hmerge, Json.lookup_mergeIntoObj_get _ _ "audio" (.arr a) hd2 rfl]
    rfl
  · intro k hk
    rw [hmerge, Json.lookup_mergeIntoObj_notin, ht]
    simpa [JObj.keys, staticCategoryKeys] using hk

/-! ## Claims -/

/-- Claim C10: in every battery record produced by `getBatteryInfo`, if
`is_desktop` is true then `percent` is 100; and whenever the
desktop-detection test fires (battery flag 128 or 255, or life percent 255
with flag 1), the record is forced to `percent = 100`, `power_plugged =
true` and `is_desktop = true`, overriding any previously read battery
percentage. -/
theorem C10_battery_desktop_percent (env : BatteryEnv) :
    ((getBatteryInfo env).lookup "is_desktop" = some (.bool true) →
      (getBatteryInfo env).lookup "percent" = some (.num 100)) ∧
    (∀ ps, env.status = some ps →
      (ps.batteryFlag = 128 ∨ ps.batteryFlag = 255 ∨
        (ps.batteryLifePercent = 255 ∧ ps.batteryFlag = 1)) →
      (getBatteryInfo env).lookup "percent" = some (.num 100) ∧
      (getBatteryInfo env).lookup "power_plugged" = some (.bool true) ∧
      (getBatteryInfo env).lookup "is_desktop" = some (.bool true)) := by
  rcases env with ⟨st⟩
  cases st with
  | none =>
      constructor
      · intro _
        rfl
      · intro ps hps
        exact absurd hps (by simp)
  | some ps =>
      simp only [getBatteryInfo]
      by_cases hlp : ps.batteryLifePercent ≠ 255
      · rw [if_pos hlp]
        split
        · constructor
          · intro _
            rfl
          · intro ps2 hps2 hfire
            exact ⟨rfl, rfl, rfl⟩
        · next hcond =>
            constructor
            · intro hdesk
              simp [Json.setKey, JObj.set, Json.lookup, JObj.get] at hdesk
            · intro ps2 hps2 hfire
              injection hps2 with hps2
              subst hps2
              simp only [Bool.or_eq_true, Bool.and_eq_true, decide_eq_true_eq] at hcond
              rcases hfire with h | h | h <;> simp [h] at hcond
      · rw [if_neg hlp]
        split
        · constructor
          · intro _
            rfl
          · intro ps2 hps2 hfire
            exact ⟨rfl, rfl, rfl⟩
        · next hcond =>
            constructor
            · intro _
              rfl
            · intro ps2 hps2 hfire
              injection hps2 with hps2
              subst hps2
              simp only [Bool.or_eq_true, Bool.and_eq_true, decide_eq_true_eq] at hcond
              simp only [ne_eq, not_not] at hlp
              rcases hfire with h | h | h <;> simp [h, hlp] at hcond

/-- Witness for C10 at a concrete power status (flag 128, a desktop):
the record is forced to 100 percent, plugged, desktop. -/
theorem C10_battery_desktop_percent_witness :
    (getBatteryInfo ⟨some ⟨1, 128, 55⟩⟩).lookup "percent" = some (.num 100) ∧
    (getBatteryInfo ⟨some ⟨1, 128, 55⟩⟩).lookup "power_plugged" = some (.bool true) ∧
    (getBatteryInfo ⟨some ⟨1, 128, 55⟩⟩).lookup "is_desktop" = some (.bool true) :=
  (C10_battery_desktop_percent ⟨some ⟨1, 128, 55⟩⟩).2 ⟨1, 128, 55⟩ rfl (Or.inl rfl)

theorem foldl_fnv_lt (bs : List Nat) (init : Nat) (h : init < 18446744073709551616) :
    bs.foldl (fun acc b => ((acc ^^^ b) * 1099511628211) % 18446744073709551616) init <
      18446744073709551616 := by
  induction bs generalizing init with
  | nil => simpa
  | cons b rest ih => exact ih _ (Nat.mod_lt _ (by norm_num))

theorem fnv1a64_lt (bs : List Nat) : fnv1a64 bs < 18446744073709551616 :=
  foldl_fnv_lt bs _ (by norm_num)

/-- Claim C5: the device identity concatenates, in order, the motherboard
serial (when obtained), the host name, the processor-architecture code and
the logical-processor count, hashes the result with 64-bit FNV-1a, and
formats the hash as five hyphen-separated hex groups of 8, 4, 4, 4 and 12
digits, each sliced out of the same 64-bit value; the result depends only on
those four inputs (so repeated calls on fixed inputs are byte-for-byte
identical), and on failure the raw host name is returned with no hash. -/
theorem C5_device_identity (e : DeviceIdEnv) :
    (e.fault = false →
      (getDeviceId e).1 =
        deviceIdFormat (fnv1a64 (strBytes (
          (match e.serial with | some s => s | none => "") ++
          (match e.computerName with | some s => s | none => "") ++
          toString e.processorType ++ toString e.numProcessors))) ∧
      (∃ g1 g2 g3 g4 g5 : String,
        (getDeviceId e).1 = g1 ++ "-" ++ g2 ++ "-" ++ g3 ++ "-" ++ g4 ++ "-" ++ g5 ∧
        g1.length = 8 ∧ g2.length = 4 ∧ g3.length = 4 ∧ g4.length = 4 ∧ g5.length = 12 ∧
        (∀ c ∈ g1.data ++ g2.data ++ g3.data ++ g4.data ++ g5.data, isHexChar c = true) ∧
        (∃ hv : Nat, hv < 18446744073709551616 ∧
          g1 = hexPad 8 (hv % 4294967296) ∧
          g2 = hexPad 4 ((hv / 65536) % 65536) ∧
          g3 = hexPad 4 ((hv / 4294967296) % 65536) ∧
          g4 = hexPad 4 ((hv / 281474976710656) % 65536) ∧
          g5 = hexPad 12 (hv % 281474976710656)))) ∧
    (∀ e2 : DeviceIdEnv, e2.serial = e.serial → e2.computerName = e.computerName →
      e2.processorType = e.processorType → e2.numProcessors = e.numProcessors →
      e2.fault = e.fault → (getDeviceId e2).1 = (getDeviceId e).1) ∧
    (e.fault = true →
      (getDeviceId e).1 = (match e.computerName with | some s => s | none => "")) := by
  refine ⟨?_, ?_, ?_⟩
  · intro hf
    constructor
    · simp [getDeviceId, hf, deviceIdBase]
    · refine ⟨hexPad 8 (fnv1a64 (strBytes (deviceIdBase e)) % 4294967296),
        hexPad 4 ((fnv1a64 (strBytes (deviceIdBase e)) / 65536) % 65536),
        hexPad 4 ((fnv1a64 (strBytes (deviceIdBase e)) / 4294967296) % 65536),
        hexPad 4 ((fnv1a64 (strBytes (deviceIdBase e)) / 281474976710656) % 65536),
        hexPad 12 (fnv1a64 (strBytes (deviceIdBase e)) % 281474976710656),
        ?_, ?_, ?_, ?_, ?_, ?_, ?_, ?_⟩
      · simp [getDeviceId, hf, deviceIdFormat]
      · exact hexPad_length 8 _ (Nat.mod_lt _ (by norm_num)) (by norm_num)
      · exact hexPad_length 4 _ (Nat.mod_lt _ (by norm_num)) (by norm_num)
      · exact hexPad_length 4 _ (Nat.mod_lt _ (by norm_num)) (by norm_num)
      · exact hexPad_length 4 _ (Nat.mod_lt _ (by norm_num)) (by norm_num)
      · exact hexPad_length 12 _ (Nat.mod_lt _ (by norm_num)) (by norm_num)
      · intro c hc
        simp only [List.mem_append] at hc
        rcases hc with ((((hc | hc) | hc) | hc) | hc) <;> exact hexPad_all_hex _ _ c hc
      · exact ⟨fnv1a64 (strBytes (deviceIdBase e)), fnv1a64_lt _, rfl, rfl, rfl, rfl, rfl⟩
  · rcases e with ⟨f, sr, cn, pt, np⟩
    rintro ⟨f2, sr2, cn2, pt2, np2⟩ h1 h2 h3 h4 h5
    simp only at h1 h2 h3 h4 h5
    subst h1
    subst h2
    subst h3
    subst h4
    subst h5
    rfl
  · intro hf
    simp [getDeviceId, hf]

/-- Witness for C5 at concrete inputs (serial `"BASE1"`, host `"PC-01"`,
architecture code 8664, 16 processors), and at a concrete failing call. -/
theorem C5_device_identity_witness :
    (getDeviceId ⟨false, some "BASE1", some "PC-01", 8664, 16⟩).1 =
      deviceIdFormat (fnv1a64 (strBytes ("BASE1" ++ "PC-01" ++ toString 8664 ++ toString 16))) ∧
    (getDeviceId ⟨true, some "BASE1", some "PC-01", 8664, 16⟩).1 = "PC-01" :=
  ⟨((C5_device_identity ⟨false, some "BASE1", some "PC-01", 8664, 16⟩).1 rfl).1,
   (C5_device_identity ⟨true, some "BASE1", some "PC-01", 8664, 16⟩).2.2 rfl⟩

/-- Claim C6: in the storage output every volume is enriched by `volJson`
against the physical-disk map; a local volume (DriveType 3) is looked up in
the map by its own identifier — on a miss its model is `"Unknown Disk"` and
its interface `"Unknown"`, on a hit both come from the mapped disk record —
while a removable volume is never looked up (its enrichment is independent
of the map): its model comes from the volume label, `"Removable Disk"` when
absent, and its interface is always `"USB"`. -/
theorem C6_storage_enrichment (env : StorageEnv) (h1 : env.fault = false)
    (h2 : env.wmiOk = true) :
    getStorageInfo env = .arr (env.volumes.map (volJson (buildPhysMap env.disks))) ∧
    ∀ (mp : JObj) (v : Volume),
      (v.driveType = some 3 →
        (mp.get (match v.deviceID with | some s => s | none => "") = none →
          (volJson mp v).lookup "model" = some (.str "Unknown Disk") ∧
          (volJson mp v).lookup "interface" = some (.str "Unknown")) ∧
        (∀ di, mp.get (match v.deviceID with | some s => s | none => "") = some di →
          (volJson mp v).lookup "model" = some (di.getKeyD "model") ∧
          (volJson mp v).lookup "interface" = some (di.getKeyD "interface"))) ∧
      (∀ t, v.driveType = some t → t ≠ 3 →
        volJson mp v = volJson .nil v ∧
        (volJson mp v).lookup "interface" = some (.str "USB") ∧
        (v.volumeName = none →
          (volJson mp v).lookup "model" = some (.str "Removable Disk")) ∧
        (∀ nm, v.volumeName = some nm →
          (volJson mp v).lookup "model" = some (.str (sanitizeString nm)))) := by
  constructor
  · simp [getStorageInfo, h1, h2]
  intro mp v
  rcases v with ⟨vid, vt, vsz, vfree, vname⟩
  constructor
  · intro hdt
    simp only at hdt
    subst hdt
    constructor
    · intro hmiss
      rcases vid with _ | vid <;> rcases vsz with _ | vsz <;> rcases vfree with _ | vfree <;>
        · simp only at hmiss
          simp [volJson, hmiss, Json.setKey, JObj.set, Json.lookup, JObj.get,
            Json.getKeyD, Json.eqStr, safeWMIString]
    · intro di hhit
      rcases vid with _ | vid <;> rcases vsz with _ | vsz <;> rcases vfree with _ | vfree <;>
        · simp only at hhit
          simp [volJson, hhit, Json.setKey, JObj.set, Json.lookup, JObj.get,
            Json.getKeyD, Json.eqStr, safeWMIString]
  · intro t hdt ht
    simp only at hdt
    subst hdt
    have hts : (if t = 3 then "Local Disk" else "Removable Disk") = "Removable Disk" :=
      if_neg ht
    rcases vid with _ | vid <;> rcases vsz with _ | vsz <;> rcases vfree with _ | vfree <;>
        rcases vname with _ | vname <;>
      · refine ⟨?_, ?_, ?_, ?_⟩ <;>
          simp [volJson, hts, Json.setKey, JObj.set, Json.lookup, JObj.get,
            Json.getKeyD, Json.eqStr, safeWMIString]

/-- Witness for C6: a local volume `C:` mapped to a physical disk takes the
disk's model, an unmapped local volume gets the unknown sentinels, and a
removable volume with a label gets the label and a `"USB"` interface. -/
theorem C6_storage_enrichment_witness :
    (volJson (buildPhysMap [⟨some "PD0", some "Samsung SSD 970", some "NVMe", ["C:"]⟩])
        ⟨some "C:", some 3, some 107374182400, some 53687091200, none⟩).lookup "model" =
      some ((diskJson ⟨some "PD0", some "Samsung SSD 970", some "NVMe", ["C:"]⟩).getKeyD "model") ∧
    (volJson (buildPhysMap [⟨some "PD0", some "Samsung SSD 970", some "NVMe", ["C:"]⟩])
        ⟨some "D:", some 3, some 1000, some 500, none⟩).lookup "model" =
      some (.str "Unknown Disk") ∧
    (volJson (buildPhysMap [⟨some "PD0", some "Samsung SSD 970", some "NVMe", ["C:"]⟩])
        ⟨some "E:", some 2, some 1000, some 500, some "KINGSTON"⟩).lookup "interface" =
      some (.str "USB") := by
  refine ⟨?_, ?_, ?_⟩
  · exact ((((C6_storage_enrichment ⟨false, true,
      [⟨some "PD0", some "Samsung SSD 970", some "NVMe", ["C:"]⟩], []⟩ rfl rfl).2
        (buildPhysMap [⟨some "PD0", some "Samsung SSD 970", some "NVMe", ["C:"]⟩])
        ⟨some "C:", some 3, some 107374182400, some 53687091200, none⟩).1 rfl).2
        (diskJson ⟨some "PD0", some "Samsung SSD 970", some "NVMe", ["C:"]⟩) rfl).1
  · exact ((((C6_storage_enrichment ⟨false, true,
      [⟨some "PD0", some "Samsung SSD 970", some "NVMe", ["C:"]⟩], []⟩ rfl rfl).2
        (buildPhysMap [⟨some "PD0", some "Samsung SSD 970", some "NVMe", ["C:"]⟩])
        ⟨some "D:", some 3, some 1000, some 500, none⟩).1 rfl).1 rfl).1
  · exact (((C6_storage_enrichment ⟨false, true,
      [⟨some "PD0", some "Samsung SSD 970", some "NVMe", ["C:"]⟩], []⟩ rfl rfl).2
        (buildPhysMap [⟨some "PD0", some "Samsung SSD 970", some "NVMe", ["C:"]⟩])
        ⟨some "E:", some 2, some 1000, some 500, some "KINGSTON"⟩).2 2 rfl
          (by decide)).2.1

theorem findVram_eq_find (nm : String) (as : List DxgiAdapter) :
    findVram nm as =
      (as.find? (fun a => a.descOk && gpuMatch a.description nm)).map
        (fun a => a.dedicatedVideoMemory) := by
  induction as with
  | nil => rfl
  | cons a rest ih =>
      rw [findVram]
      by_cases hc : (a.descOk && gpuMatch a.description nm) = true
      · rw [if_pos hc, List.find?_cons]
        simp [hc]
      · rw [Bool.not_eq_true] at hc
        rw [if_neg (by simp [hc]), ih, List.find?_cons]
        simp [hc]

/-- Claim C7: each GPU's VRAM comes from the first enumerated adapter whose
description and the GPU's reported name contain one another case-insensitively
(in either direction); the winning adapter's byte count is converted to
gigabytes with two-decimal rounding; a GPU with no matching adapter (or with
no adapter factory) reports `"N/A"`. -/
theorem C7_gpu_vram (env : GpuEnv) (h1 : env.fault = false) (h2 : env.wmiOk = true) :
    (getGPUInfo env).1 = .arr (env.controllers.map (gpuJson env)) ∧
    (∀ nm, findVram nm env.adapters =
      (env.adapters.find? (fun a => a.descOk && gpuMatch a.description nm)).map
        (fun a => a.dedicatedVideoMemory)) ∧
    (∀ c : GpuController, env.factoryOk = true →
      ((findVram (match c.name with | some s => s | none => "") env.adapters = none →
        (gpuJson env c).lookup "vram_total" = some (.str "N/A")) ∧
      (∀ b, findVram (match c.name with | some s => s | none => "") env.adapters = some b →
        (gpuJson env c).lookup "vram_total" = some (.str (fmtCenti (centiFromBytes b)))))) ∧
    (env.factoryOk = false →
      ∀ c, (gpuJson env c).lookup "vram_total" = some (.str "N/A")) ∧
    (∀ d nm, gpuMatch d nm = true ↔
      ((∃ p q, (lowerStr d).data = p ++ (lowerStr nm).data ++ q) ∨
       (∃ p q, (lowerStr nm).data = p ++ (lowerStr d).data ++ q))) := by
  refine ⟨?_, ?_, ?_, ?_, ?_⟩
  · simp [getGPUInfo, h1, h2]
  · intro nm
    exact findVram_eq_find nm env.adapters
  · intro c hfo
    constructor
    · intro hnone
      simp [gpuJson, hfo, hnone, Json.lookup_setKey_self]
    · intro b hsome
      simp [gpuJson, hfo, hsome, Json.lookup_setKey_self]
  · intro hfo c
    simp [gpuJson, hfo, Json.lookup_setKey_self]
  · intro d nm
    simp [gpuMatch, Bool.or_eq_true, containsL_iff]

/-- Witness for C7: `"NVIDIA GeForce RTX 4060"` matches the enumerated
description `"GeForce RTX 4060"` (8 GiB, formatted `"8.00"`); a GPU with no
overlapping adapter reports `"N/A"`. -/
theorem C7_gpu_vram_witness :
    (gpuJson ⟨false, true, [⟨some "NVIDIA GeForce RTX 4060", some "551.23"⟩], true,
        [⟨true, "GeForce RTX 4060", 8589934592⟩]⟩
      ⟨some "NVIDIA GeForce RTX 4060", some "551.23"⟩).lookup "vram_total" =
      some (.str (fmtCenti (centiFromBytes 8589934592))) ∧
    (gpuJson ⟨false, true, [⟨some "Intel Iris Xe", none⟩], true,
        [⟨true, "AMD Radeon 780M", 536870912⟩]⟩
      ⟨some "Intel Iris Xe", none⟩).lookup "vram_total" = some (.str "N/A") := by
  constructor
  · exact ((C7_gpu_vram ⟨false, true, [⟨some "NVIDIA GeForce RTX 4060", some "551.23"⟩], true,
      [⟨true, "GeForce RTX 4060", 8589934592⟩]⟩ rfl rfl).2.2.1
        ⟨some "NVIDIA GeForce RTX 4060", some "551.23"⟩ rfl).2 8589934592 (by decide)
  · exact ((C7_gpu_vram ⟨false, true, [⟨some "Intel Iris Xe", none⟩], true,
      [⟨true, "AMD Radeon 780M", 536870912⟩]⟩ rfl rfl).2.2.1
        ⟨some "Intel Iris Xe", none⟩ rfl).1 (by decide)

/-- Claim C8: in every background-loop iteration the fast-cadence adapters
(storage, battery, network) are written unconditionally, while the
slow-cadence adapters (cpu, memory) are written exactly when at least one
second has elapsed against the task-local `lastSlowUpdate` timestamp (which
only then advances); otherwise their cached values are untouched. -/
theorem C8_refresh_cadence (env : Env) (now : Nat) (s : CState) :
    ((iteration env now s).cachedDynamicInfo.lookup "storage"
        = some (getStorageInfo env.storage) ∧
     (iteration env now s).cachedDynamicInfo.lookup "battery"
        = some (getBatteryInfo env.battery) ∧
     (iteration env now s).cachedDynamicInfo.lookup "network"
        = some (getNetworkInfo env.network)) ∧
    ((now - s.slowLast.getD now) / 1000 ≥ 1 →
      (iteration env now s).cachedDynamicInfo.lookup "cpu" = some (getCPUInfo env.cpu) ∧
      (iteration env now s).cachedDynamicInfo.lookup "memory"
        = some (getMemoryInfo env.memory) ∧
      (iteration env now s).slowLast = some now) ∧
    ((now - s.slowLast.getD now) / 1000 < 1 →
      (iteration env now s).cachedDynamicInfo.lookup "cpu"
        = s.cachedDynamicInfo.lookup "cpu" ∧
      (iteration env now s).cachedDynamicInfo.lookup "memory"
        = s.cachedDynamicInfo.lookup "memory" ∧
      (iteration env now s).slowLast = some (s.slowLast.getD now)) := by
  unfold iteration updateSlowData updateFastData
  by_cases hc : (now - s.slowLast.getD now) / 1000 ≥ 1
  · rw [if_pos hc]
    refine ⟨⟨?_, ?_, ?_⟩, ?_, ?_⟩
    · rw [Json.lookup_setKey_ne _ _ _ _ (by decide), Json.lookup_setKey_ne _ _ _ _ (by decide),
        Json.lookup_setKey_ne _ _ _ _ (by decide), Json.lookup_setKey_ne _ _ _ _ (by decide),
        Json.lookup_setKey_self]
    · rw [Json.lookup_setKey_ne _ _ _ _ (by decide), Json.lookup_setKey_ne _ _ _ _ (by decide),
        Json.lookup_setKey_ne _ _ _ _ (by decide), Json.lookup_setKey_self]
    · rw [Json.lookup_setKey_ne _ _ _ _ (by decide), Json.lookup_setKey_ne _ _ _ _ (by decide),
        Json.lookup_setKey_self]
    · intro _
      refine ⟨?_, ?_, rfl⟩
      · rw [Json.lookup_setKey_ne _ _ _ _ (by decide), Json.lookup_setKey_self]
      · rw [Json.lookup_setKey_self]
    · intro hlt
      omega
  · rw [if_neg hc]
    refine ⟨⟨?_, ?_, ?_⟩, ?_, ?_⟩
    · rw [Json.lookup_setKey_ne _ _ _ _ (by decide), Json.lookup_setKey_ne _ _ _ _ (by decide),
        Json.lookup_setKey_self]
    · rw [Json.lookup_setKey_ne _ _ _ _ (by decide), Json.lookup_setKey_self]
    · rw [Json.lookup_setKey_self]
    · intro hge
      omega
    · intro _
      refine ⟨?_, ?_, rfl⟩
      · rw [Json.lookup_setKey_ne _ _ _ _ (by decide), Json.lookup_setKey_ne _ _ _ _ (by decide),
          Json.lookup_setKey_ne _ _ _ _ (by decide)]
      · rw [Json.lookup_setKey_ne _ _ _ _ (by decide), Json.lookup_setKey_ne _ _ _ _ (by decide),
          Json.lookup_setKey_ne _ _ _ _ (by decide)]

/-- Witness for C8: with the task-local timestamp at 0, an iteration at
t = 1500 ms refreshes cpu, one at t = 500 ms leaves cpu untouched while
still writing storage. -/
theorem C8_refresh_cadence_witness :
    (iteration ⟨⟨false, none, none, 0, 1⟩, none, ⟨false, true, none, none, none, none, none⟩,
        ⟨false, true, [], true, []⟩, ⟨false, true, []⟩, ⟨false, true, []⟩,
        ⟨0, 0, 0, true, []⟩, ⟨false, true, [], []⟩, ⟨none⟩, ⟨true, false, true, true, []⟩⟩
        1500 ⟨.null, .null, 0, some 0, true, 0⟩).cachedDynamicInfo.lookup "cpu"
      = some (getCPUInfo ⟨false, true, []⟩) ∧
    (iteration ⟨⟨false, none, none, 0, 1⟩, none, ⟨false, true, none, none, none, none, none⟩,
        ⟨false, true, [], true, []⟩, ⟨false, true, []⟩, ⟨false, true, []⟩,
        ⟨0, 0, 0, true, []⟩, ⟨false, true, [], []⟩, ⟨none⟩, ⟨true, false, true, true, []⟩⟩
        500 ⟨.null, .null, 0, some 0, true, 0⟩).cachedDynamicInfo.lookup "cpu"
      = (Json.null).lookup "cpu" ∧
    (iteration ⟨⟨false, none, none, 0, 1⟩, none, ⟨false, true, none, none, none, none, none⟩,
        ⟨false, true, [], true, []⟩, ⟨false, true, []⟩, ⟨false, true, []⟩,
        ⟨0, 0, 0, true, []⟩, ⟨false, true, [], []⟩, ⟨none⟩, ⟨true, false, true, true, []⟩⟩
        500 ⟨.null, .null, 0, some 0, true, 0⟩).cachedDynamicInfo.lookup "storage"
      = some (getStorageInfo ⟨false, true, [], []⟩) :=
  ⟨((C8_refresh_cadence _ 1500 ⟨.null, .null, 0, some 0, true, 0⟩).2.1 (by decide)).1,
   ((C8_refresh_cadence _ 500 ⟨.null, .null, 0, some 0, true, 0⟩).2.2 (by decide)).1,
   (C8_refresh_cadence _ 500 ⟨.null, .null, 0, some 0, true, 0⟩).1.1⟩

/-! ### Snapshot-level helper lemmas -/

theorem Json.keysOf_mergePatch_null_sub (dyn : Json) (k : String)
    (h : k ∈ (Json.mergePatch .null dyn).keysOf) : k ∈ dyn.keysOf := by
  cases dyn with
  | obj es =>
      have h2 : Json.mergePatch .null (.obj es) = Json.mergeIntoObj (.obj .nil) es := rfl
      rw [h2] at h
      rcases Json.keysOf_mergeIntoObj_sub es _ k h with h3 | h3
      · simp [Json.keysOf, JObj.keys] at h3
      · simpa [Json.keysOf] using h3
  | null => simpa [Json.mergePatch, Json.keysOf] using h
  | str s => simpa [Json.mergePatch, Json.keysOf] using h
  | num n => simpa [Json.mergePatch, Json.keysOf] using h
  | dbl n => simpa [Json.mergePatch, Json.keysOf] using h
  | bool b => simpa [Json.mergePatch, Json.keysOf] using h
  | arr l => simpa [Json.mergePatch, Json.keysOf] using h

/-- In a state whose dynamic tier only holds dynamic categories, the merged
dynamic side binds no static-category key. -/
theorem dyn_merge_static_none (s1 : CState) (hdyn : DynKeysOK s1) (k : String)
    (hk : k ∈ staticCategoryKeys) :
    (Json.mergePatch .null s1.cachedDynamicInfo).lookup k = none := by
  cases hv : (Json.mergePatch .null s1.cachedDynamicInfo).lookup k with
  | none => rfl
  | some v =>
      exfalso
      have h1 := Json.lookup_some_mem _ _ _ hv
      have h2 := Json.keysOf_mergePatch_null_sub _ _ h1
      have h3 := hdyn _ h2
      simp only [dynCategoryKeys, staticCategoryKeys, List.mem_cons, List.not_mem_nil,
        or_false] at h3 hk
      rcases h3 with rfl | rfl | rfl | rfl | rfl <;> simp at hk

/-- The merged snapshot agrees with the static tier on every static
category. -/
theorem snapshot_static_eq (s1 : CState) (hshape : IsStaticShape s1.cachedStaticInfo)
    (hdyn : DynKeysOK s1) :
    ∀ k ∈ staticCategoryKeys,
      (Json.mergePatch (Json.mergePatch .null s1.cachedDynamicInfo)
        s1.cachedStaticInfo).lookup k = s1.cachedStaticInfo.lookup k := by
  obtain ⟨d, n, p, m, bv, bs, br, g, a, hsh⟩ := hshape
  have hmb := dyn_merge_static_none s1 hdyn "motherboard" (by simp [staticCategoryKeys])
  have hfacts := lookup_merge_staticShape (Json.mergePatch .null s1.cachedDynamicInfo) hmb
    d n p m bv bs br g a
  intro k hk
  rw [hsh]
  simp only [staticCategoryKeys, List.mem_cons, List.not_mem_nil, or_false] at hk
  rcases hk with rfl | rfl | rfl | rfl | rfl
  · rw [hfacts.1]
    rfl
  · rw [hfacts.2.1]
    rfl
  · rw [hfacts.2.2.1]
    rfl
  · rw [hfacts.2.2.2.1]
    rfl
  · rw [hfacts.2.2.2.2.1]
    rfl

theorem reach_runIters (its : List (Env × Nat)) (s : CState) (hs : Reach s) :
    Reach (runIters its s) := by
  induction its generalizing s with
  | nil => exact hs
  | cons p rest ih => exact ih _ (Reach.iter s p.1 p.2 hs)

/-- Claim C2: every snapshot read merges the dynamic tier first and the
static tier second into a fresh record, so the static tier wins on any key
collision: every static-category key of the returned record holds exactly
the static tier's value, and a key bound by both tiers (none exists, since
the tiers partition the categories) would read back the static tier's
binding. -/
theorem C2_merge_order (s : CState) (hs : Reach s) (env : Env) (now : Nat) :
    (getSystemInfo env now s).1 =
      Json.mergePatch (Json.mergePatch .null (getSystemInfo env now s).2.1.cachedDynamicInfo)
        (getSystemInfo env now s).2.1.cachedStaticInfo ∧
    (∀ k ∈ staticCategoryKeys,
      (getSystemInfo env now s).1.lookup k
        = (getSystemInfo env now s).2.1.cachedStaticInfo.lookup k) ∧
    (∀ k v w, (getSystemInfo env now s).2.1.cachedDynamicInfo.lookup k = some v →
      (getSystemInfo env now s).2.1.cachedStaticInfo.lookup k = some w →
      (getSystemInfo env now s).1.lookup k = some w) := by
  have hreach : Reach (getSystemInfo env now s).2.1 := Reach.read s env now hs
  have hinv := reach_inv _ hreach
  refine ⟨getSystemInfo_fst env now s, ?_, ?_⟩
  · intro k hk
    rw [getSystemInfo_fst env now s]
    exact snapshot_static_eq _ hinv.1 hinv.2 k hk
  · intro k v w hdv hsv
    exfalso
    have h1 := hinv.2 _ (Json.lookup_some_mem _ _ _ hdv)
    obtain ⟨d, n, p, m, bv, bs, br, g, a, hsh⟩ := hinv.1
    rw [hsh] at hsv
    have h2 := Json.lookup_some_mem _ _ _ hsv
    simp only [staticShape, Json.keysOf, JObj.keys] at h2
    simp only [dynCategoryKeys, List.mem_cons, List.not_mem_nil, or_false] at h1 h2
    rcases h1 with rfl | rfl | rfl | rfl | rfl <;> simp at h2

/-- A concrete environment for the C2 witness (every source unavailable:
the sentinels still flow through). -/
def envC2 : Env :=
  ⟨⟨false, none, some "PC", 0, 1⟩, some "PC", ⟨false, false, none, none, none, none, none⟩,
   ⟨false, false, [], false, []⟩, ⟨false, false, []⟩, ⟨false, false, []⟩,
   ⟨0, 0, 0, false, []⟩, ⟨false, false, [], []⟩, ⟨none⟩, ⟨true, false, true, false, []⟩⟩

def stateC2 : CState := (initializeCache envC2 0 initState).1

/-- Witness for C2 at a concrete reachable state: the snapshot read after
initialization holds the static tier's `deviceId`. -/
theorem C2_merge_order_witness :
    (getSystemInfo envC2 50 stateC2).1.lookup "deviceId"
      = (getSystemInfo envC2 50 stateC2).2.1.cachedStaticInfo.lookup "deviceId" :=
  (C2_merge_order stateC2 (Reach.init envC2 0) envC2 50).2.1 "deviceId"
    (by simp [staticCategoryKeys])

theorem IsStaticShape.not_empty (j : Json) (h : IsStaticShape j) : j.isEmptyJ = false := by
  obtain ⟨d, n, p, m, bv, bs, br, g, a, rfl⟩ := h
  rfl

/-- Claim C4: a read re-populates the static tier — invoking the five static
adapters — exactly when the tier is empty or at least 60 seconds old; and
after a read, any number of background iterations followed by a second read
within the 60-second TTL leaves the static-adapter call counter and the
static tier untouched, and returns the same static-category values as the
first read. -/
theorem C4_static_ttl (s : CState) (hs : Reach s) (env1 : Env) (t1 : Nat)
    (its : List (Env × Nat)) (env2 : Env) (t2 : Nat)
    (httl : (t2 - (getSystemInfo env1 t1 s).2.1.lastStaticUpdate) / 1000 < 60) :
    (∀ (s0 : CState) (env : Env) (t : Nat),
      (getSystemInfo env t s0).2.1.staticCalls =
        (if s0.cachedStaticInfo.isEmptyJ = true ∨ (t - s0.lastStaticUpdate) / 1000 ≥ 60
         then s0.staticCalls + 5 else s0.staticCalls)) ∧
    (runIters its (getSystemInfo env1 t1 s).2.1).staticCalls
        = (getSystemInfo env1 t1 s).2.1.staticCalls ∧
    (getSystemInfo env2 t2 (runIters its (getSystemInfo env1 t1 s).2.1)).2.1.staticCalls
        = (getSystemInfo env1 t1 s).2.1.staticCalls ∧
    (getSystemInfo env2 t2 (runIters its (getSystemInfo env1 t1 s).2.1)).2.1.cachedStaticInfo
        = (getSystemInfo env1 t1 s).2.1.cachedStaticInfo ∧
    (∀ k ∈ staticCategoryKeys,
      (getSystemInfo env2 t2 (runIters its (getSystemInfo env1 t1 s).2.1)).1.lookup k
        = (getSystemInfo env1 t1 s).1.lookup k) := by
  have hs1 : Reach (getSystemInfo env1 t1 s).2.1 := Reach.read s env1 t1 hs
  have hinv1 := reach_inv _ hs1
  have hs2 : Reach (runIters its (getSystemInfo env1 t1 s).2.1) :=
    reach_runIters its _ hs1
  have hinv2 := reach_inv _ hs2
  have hpres := runIters_static its (getSystemInfo env1 t1 s).2.1
  have hnoexp : staticExpired (runIters its (getSystemInfo env1 t1 s).2.1) t2 = false := by
    unfold staticExpired
    rw [hpres.1, hpres.2.1, IsStaticShape.not_empty _ hinv1.1]
    simp only [Bool.false_or, decide_eq_false_iff_not, not_le]
    omega
  have hstate2 : (getSystemInfo env2 t2 (runIters its (getSystemInfo env1 t1 s).2.1)).2.1
      = runIters its (getSystemInfo env1 t1 s).2.1 := by
    rw [getSystemInfo_state, hnoexp]
    rfl
  refine ⟨?_, hpres.2.2, ?_, ?_, ?_⟩
  · intro s0 env t
    rw [getSystemInfo_state]
    by_cases hc : staticExpired s0 t = true
    · rw [if_pos hc, refreshStatic_calls]
      unfold staticExpired at hc
      simp only [Bool.or_eq_true, decide_eq_true_eq] at hc
      rw [if_pos hc]
    · rw [if_neg hc]
      unfold staticExpired at hc
      simp only [Bool.or_eq_true, decide_eq_true_eq, not_or, not_le] at hc
      rw [if_neg (not_or.mpr ⟨hc.1, not_le.mpr hc.2⟩)]
  · rw [hstate2, hpres.2.2]
  · rw [hstate2, hpres.1]
  · intro k hk
    have h2 := snapshot_static_eq _ hinv2.1 hinv2.2 k hk
    have h1 := snapshot_static_eq _ hinv1.1 hinv1.2 k hk
    rw [getSystemInfo_fst env2 t2, hstate2, h2, hpres.1,
      getSystemInfo_fst env1 t1, h1]

/-- A concrete environment and post-initialization state for the C4 witness. -/
def envC4 : Env :=
  ⟨⟨false, some "SER", some "HOST", 0, 2⟩, some "HOST",
   ⟨false, false, none, none, none, none, none⟩, ⟨false, false, [], false, []⟩,
   ⟨false, false, []⟩, ⟨false, false, []⟩, ⟨0, 0, 0, false, []⟩,
   ⟨false, false, [], []⟩, ⟨none⟩, ⟨true, false, true, false, []⟩⟩

def stateC4 : CState := (initializeCache envC4 0 initState).1

/-- Witness for C4: a read at t = 100 ms, one background iteration, then a
read at t = 30 s re-invokes no static adapter and keeps the static tier. -/
theorem C4_static_ttl_witness :
    (getSystemInfo envC4 30000
        (runIters [(envC4, 200)] (getSystemInfo envC4 100 stateC4).2.1)).2.1.staticCalls
      = (getSystemInfo envC4 100 stateC4).2.1.staticCalls ∧
    (getSystemInfo envC4 30000
        (runIters [(envC4, 200)] (getSystemInfo envC4 100 stateC4).2.1)).2.1.cachedStaticInfo
      = (getSystemInfo envC4 100 stateC4).2.1.cachedStaticInfo :=
  ⟨(C4_static_ttl stateC4 (Reach.init envC4 0) envC4 100 [(envC4, 200)] envC4 30000
      (by decide)).2.2.1,
   (C4_static_ttl stateC4 (Reach.init envC4 0) envC4 100 [(envC4, 200)] envC4 30000
      (by decide)).2.2.2.1⟩

/-! ### What the refreshed static tier binds each category to -/

theorem refreshStatic_lookup_deviceId (env : Env) (now : Nat) (s : CState) :
    (refreshStatic env now s).1.cachedStaticInfo.lookup "deviceId"
      = some (.str (getDeviceId env.deviceId).1) := by
  unfold refreshStatic
  simp only
  rw [Json.lookup_setKey_ne _ _ _ _ (by decide), Json.lookup_setKey_ne _ _ _ _ (by decide),
    Json.lookup_setKey_ne _ _ _ _ (by decide), Json.lookup_setKey_ne _ _ _ _ (by decide),
    Json.lookup_setKey_self]

theorem refreshStatic_lookup_motherboard (env : Env) (now : Nat) (s : CState) :
    (refreshStatic env now s).1.cachedStaticInfo.lookup "motherboard"
      = some (getMotherboardInfo env.motherboard).1 := by
  unfold refreshStatic
  simp only
  rw [Json.lookup_setKey_ne _ _ _ _ (by decide), Json.lookup_setKey_ne _ _ _ _ (by decide),
    Json.lookup_setKey_self]

theorem refreshStatic_lookup_gpu (env : Env) (now : Nat) (s : CState) :
    (refreshStatic env now s).1.cachedStaticInfo.lookup "gpu"
      = some (getGPUInfo env.gpu).1 := by
  unfold refreshStatic
  simp only
  rw [Json.lookup_setKey_ne _ _ _ _ (by decide), Json.lookup_setKey_self]

theorem refreshStatic_lookup_audio (env : Env) (now : Nat) (s : CState) :
    (refreshStatic env now s).1.cachedStaticInfo.lookup "audio"
      = some (getAudioInfo env.audio).1 := by
  unfold refreshStatic
  simp only
  rw [Json.lookup_setKey_self]

theorem getSystemInfo_logs (env : Env) (now : Nat) (s : CState) :
    (getSystemInfo env now s).2.2 =
      if staticExpired s now then (refreshStatic env now s).2 else [] := by
  unfold getSystemInfo
  split <;> rfl

theorem refreshStatic_logs (env : Env) (now : Nat) (s : CState) :
    (refreshStatic env now s).2 =
      (getDeviceId env.deviceId).2 ++ (getMotherboardInfo env.motherboard).2 ++
      (getGPUInfo env.gpu).2 ++ (getAudioInfo env.audio).2 := rfl

/-- Claim C1: a snapshot read that refreshes the static tier never
propagates an adapter's exception: the read still returns a merged record in
which a faulting adapter's category holds its failure default (the all-`N/A`
motherboard record, empty gpu and audio arrays, the raw host name for
`deviceId`), and the adapter's `ERROR` entry reaches the logging sink
instead of the caller. -/
theorem C1_read_absorbs_adapter_faults (env : Env) (now : Nat) (s : CState)
    (hstat : s.cachedStaticInfo = .null ∨ IsStaticShape s.cachedStaticInfo)
    (hdyn : DynKeysOK s) (hexp : staticExpired s now = true) :
    (env.motherboard.fault = true →
      (getSystemInfo env now s).1.lookup "motherboard" = some mbDefault ∧
      errLog "getMotherboardInfo" ∈ (getSystemInfo env now s).2.2) ∧
    (env.gpu.fault = true →
      (getSystemInfo env now s).1.lookup "gpu" = some (.arr []) ∧
      errLog "getGPUInfo" ∈ (getSystemInfo env now s).2.2) ∧
    (env.audio.fault = true →
      (getSystemInfo env now s).1.lookup "audio" = some (.arr []) ∧
      errLog "getAudioInfo" ∈ (getSystemInfo env now s).2.2) ∧
    (env.deviceId.fault = true →
      (getSystemInfo env now s).1.lookup "deviceId"
        = some (.str (match env.deviceId.computerName with | some c => c | none => "")) ∧
      errLog "getDeviceId" ∈ (getSystemInfo env now s).2.2) := by
  have hstateEq : (getSystemInfo env now s).2.1 = (refreshStatic env now s).1 := by
    rw [getSystemInfo_state, if_pos hexp]
  have hshape : IsStaticShape (refreshStatic env now s).1.cachedStaticInfo :=
    refreshStatic_shape env now s hstat
  have hdyn1 : DynKeysOK (refreshStatic env now s).1 := by
    intro k hk
    rw [refreshStatic_dyn] at hk
    exact hdyn k hk
  have hfst : (getSystemInfo env now s).1 =
      Json.mergePatch (Json.mergePatch .null (refreshStatic env now s).1.cachedDynamicInfo)
        (refreshStatic env now s).1.cachedStaticInfo := by
    rw [getSystemInfo_fst env now s, hstateEq]
  have hlogs : (getSystemInfo env now s).2.2 = (refreshStatic env now s).2 := by
    rw [getSystemInfo_logs, if_pos hexp]
  refine ⟨?_, ?_, ?_, ?_⟩
  · intro hf
    constructor
    · rw [hfst, snapshot_static_eq _ hshape hdyn1 "motherboard" (by simp [staticCategoryKeys]),
        refreshStatic_lookup_motherboard]
      simp [getMotherboardInfo, hf]
    · rw [hlogs, refreshStatic_logs]
      simp [getMotherboardInfo, hf]
  · intro hf
    constructor
    · rw [hfst, snapshot_static_eq _ hshape hdyn1 "gpu" (by simp [staticCategoryKeys]),
        refreshStatic_lookup_gpu]
      simp [getGPUInfo, hf]
    · rw [hlogs, refreshStatic_logs]
      simp [getGPUInfo, hf]
  · intro hf
    constructor
    · rw [hfst, snapshot_static_eq _ hshape hdyn1 "audio" (by simp [staticCategoryKeys]),
        refreshStatic_lookup_audio]
      simp [getAudioInfo, hf]
    · rw [hlogs, refreshStatic_logs]
      simp [getAudioInfo, hf]
  · intro hf
    constructor
    · rw [hfst, snapshot_static_eq _ hshape hdyn1 "deviceId" (by simp [staticCategoryKeys]),
        refreshStatic_lookup_deviceId]
      simp [getDeviceId, hf]
    · rw [hlogs, refreshStatic_logs]
      simp [getDeviceId, hf]

/-- A concrete environment for the C1 witness: the motherboard, gpu, audio
and device-id adapters all raise. -/
def envC1 : Env :=
  ⟨⟨true, none, some "HOSTX", 0, 1⟩, some "HOSTX",
   ⟨true, false, none, none, none, none, none⟩, ⟨true, false, [], false, []⟩,
   ⟨true, false, []⟩, ⟨false, false, []⟩, ⟨0, 0, 0, false, []⟩,
   ⟨false, false, [], []⟩, ⟨none⟩, ⟨true, false, true, false, []⟩⟩

/-- Witness for C1: with every static adapter raising, the read still
returns a record with the failure defaults and logs the errors. -/
theorem C1_read_absorbs_adapter_faults_witness :
    ((getSystemInfo envC1 0 initState).1.lookup "motherboard" = some mbDefault ∧
      errLog "getMotherboardInfo" ∈ (getSystemInfo envC1 0 initState).2.2) ∧
    ((getSystemInfo envC1 0 initState).1.lookup "gpu" = some (.arr []) ∧
      errLog "getGPUInfo" ∈ (getSystemInfo envC1 0 initState).2.2) ∧
    ((getSystemInfo envC1 0 initState).1.lookup "deviceId" = some (.str "HOSTX") ∧
      errLog "getDeviceId" ∈ (getSystemInfo envC1 0 initState).2.2) := by
  have h := C1_read_absorbs_adapter_faults envC1 0 initState (Or.inl rfl)
    (by intro k hk; simp [initState, Json.keysOf] at hk) rfl
  exact ⟨h.1 rfl, h.2.1 rfl, h.2.2.2 rfl⟩

/-! ### C3 helper shapes -/

theorem getStorageInfo_arr (env : StorageEnv) : ∃ l, getStorageInfo env = .arr l := by
  rcases env with ⟨f, w, d, v⟩
  cases f
  · cases w
    · exact ⟨_, rfl⟩
    · exact ⟨_, rfl⟩
  · exact ⟨_, rfl⟩

theorem getBatteryInfo_shape (env : BatteryEnv) :
    ∃ pc pl dk, getBatteryInfo env =
      .obj (.cons "percent" (.num pc)
        (.cons "power_plugged" (.bool pl)
        (.cons "is_desktop" (.bool dk) .nil))) := by
  rcases env with ⟨st⟩
  cases st with
  | none => exact ⟨_, _, _, rfl⟩
  | some ps =>
      simp only [getBatteryInfo]
      by_cases h1 : ps.batteryLifePercent ≠ 255
      · rw [if_pos h1]
        split <;> exact ⟨_, _, _, rfl⟩
      · rw [if_neg h1]
        split <;> exact ⟨_, _, _, rfl⟩

theorem getNetworkInfo_obj (env : NetworkEnv) (h1 : env.firstAllocOk = true)
    (h2 : env.overflowed = true → env.secondAllocOk = true) :
    ∃ e w, getNetworkInfo env =
      .obj (.cons "ethernet" (.arr e) (.cons "wlan" (.arr w) .nil)) := by
  unfold getNetworkInfo
  rw [if_neg (by simp [h1])]
  rw [if_neg (by
    simp only [Bool.and_eq_true, Bool.not_eq_true', not_and]
    intro ho
    simp [h2 ho])]
  exact ⟨_, _, rfl⟩

theorem mergePatch_null_batShape (pc : Int) (pl dk : Bool) :
    Json.mergePatch .null (.obj (.cons "percent" (.num pc)
      (.cons "power_plugged" (.bool pl) (.cons "is_desktop" (.bool dk) .nil)))) =
    .obj (.cons "percent" (.num pc)
      (.cons "power_plugged" (.bool pl) (.cons "is_desktop" (.bool dk) .nil))) := rfl

theorem mergePatch_null_netShape (e w : List Json) :
    Json.mergePatch .null (.obj (.cons "ethernet" (.arr e) (.cons "wlan" (.arr w) .nil))) =
    .obj (.cons "ethernet" (.arr e) (.cons "wlan" (.arr w) .nil)) := rfl

theorem initializeCache_last (env : Env) (t : Nat) :
    (initializeCache env t initState).1.lastStaticUpdate = t := by
  show (updateSlowData env t (updateFastData env (refreshStatic env t initState).1)).lastStaticUpdate = t
  rw [updateSlowData_last]
  rfl

theorem initializeCache_dyn (env : Env) (t : Nat) :
    (initializeCache env t initState).1.cachedDynamicInfo =
      .obj (.cons "storage" (getStorageInfo env.storage)
        (.cons "battery" (getBatteryInfo env.battery)
        (.cons "network" (getNetworkInfo env.network) .nil))) := by
  show (updateSlowData env t
      (updateFastData env (refreshStatic env t initState).1)).cachedDynamicInfo =
    .obj (.cons "storage" (getStorageInfo env.storage)
      (.cons "battery" (getBatteryInfo env.battery)
      (.cons "network" (getNetworkInfo env.network) .nil)))
  unfold updateSlowData
  split
  · next hcond =>
      exfalso
      have hsl : (updateFastData env (refreshStatic env t initState).1).slowLast = none := rfl
      rw [hsl] at hcond
      simp [Option.getD, Nat.sub_self] at hcond
  · rfl

/-- A concrete environment whose network adapter's buffer allocation fails;
every other source is healthy. -/
def envC3 : Env :=
  ⟨⟨false, none, some "PC", 0, 1⟩, some "PC",
   ⟨false, true, some "B650", some "ASUS", some "SN1", some "1.2", some "BS9"⟩,
   ⟨false, true, [], true, []⟩, ⟨false, true, []⟩, ⟨false, true, []⟩,
   ⟨0, 0, 0, true, []⟩, ⟨false, true, [], []⟩, ⟨none⟩,
   ⟨false, false, true, true, []⟩⟩

/-- Counterexample to claim C3: when the network adapter's buffer allocation
fails, its record is the null json — not a sentinel — and because
`merge_patch` erases null-valued keys, the snapshot returned to the consumer
has no `network` key at all, so a record IS missing a key of the data model
while the category's source is unavailable. -/
theorem C3_counterexample :
    getNetworkInfo envC3.network = Json.null ∧
    (getSystemInfo envC3 0 (initializeCache envC3 0 initState).1).1.lookup "network"
      = none := ⟨rfl, rfl⟩

/-- Snapshot keys outside the static categories read through to the merged
dynamic side. -/
theorem snapshot_nonstatic_eq (s1 : CState) (hshape : IsStaticShape s1.cachedStaticInfo)
    (hdyn : DynKeysOK s1) :
    ∀ k, k ∉ staticCategoryKeys →
      (Json.mergePatch (Json.mergePatch .null s1.cachedDynamicInfo)
        s1.cachedStaticInfo).lookup k
        = (Json.mergePatch .null s1.cachedDynamicInfo).lookup k := by
  obtain ⟨d, n, p, m, bv, bs, br, g, a, hsh⟩ := hshape
  have hmb := dyn_merge_static_none s1 hdyn "motherboard" (by simp [staticCategoryKeys])
  rw [hsh]
  exact (lookup_merge_staticShape _ hmb d n p m bv bs br g a).2.2.2.2.2

/-- The merged dynamic side of a freshly initialized cache: the three fast
categories read back (merge-patched over null), cpu and memory are absent. -/
theorem dynMerge_lookup (S B N : Json) :
    (Json.mergePatch .null (.obj (.cons "storage" S
        (.cons "battery" B (.cons "network" N .nil))))).lookup "storage"
      = (if S.isNullB then none else some (Json.mergePatch .null S)) ∧
    (Json.mergePatch .null (.obj (.cons "storage" S
        (.cons "battery" B (.cons "network" N .nil))))).lookup "battery"
      = (if B.isNullB then none else some (Json.mergePatch .null B)) ∧
    (Json.mergePatch .null (.obj (.cons "storage" S
        (.cons "battery" B (.cons "network" N .nil))))).lookup "network"
      = (if N.isNullB then none else some (Json.mergePatch .null N)) ∧
    (Json.mergePatch .null (.obj (.cons "storage" S
        (.cons "battery" B (.cons "network" N .nil))))).lookup "cpu" = none ∧
    (Json.mergePatch .null (.obj (.cons "storage" S
        (.cons "battery" B (.cons "network" N .nil))))).lookup "memory" = none := by
  have hm : Json.mergePatch .null (.obj (.cons "storage" S
      (.cons "battery" B (.cons "network" N .nil))))
      = Json.mergeIntoObj (.obj .nil) (.cons "storage" S
        (.cons "battery" B (.cons "network" N .nil))) := rfl
  have hnd : (JObj.cons "storage" S (.cons "battery" B (.cons "network" N .nil))).keys.Nodup := by
    simp only [JObj.keys]
    decide
  refine ⟨?_, ?_, ?_, ?_, ?_⟩
  · rw [hm, Json.lookup_mergeIntoObj_get _ _ "storage" S hnd rfl]
    rfl
  · rw [hm, Json.lookup_mergeIntoObj_get _ _ "battery" B hnd rfl]
    rfl
  · rw [hm, Json.lookup_mergeIntoObj_get _ _ "network" N hnd rfl]
    rfl
  · rw [hm, Json.lookup_mergeIntoObj_notin _ _ _ (by simp [JObj.keys])]
    rfl
  · rw [hm, Json.lookup_mergeIntoObj_notin _ _ _ (by simp [JObj.keys])]
    rfl

/-- Claim C3, amended as the code forces: a snapshot read shortly after
initialization always contains the five static categories (each bound to a
value), and the storage, battery and network categories bound to exactly
what their adapters produced — network, however, only under the proviso that
its buffer allocations succeeded (otherwise its null record is erased by the
merge, as the counterexample shows); the cpu and memory keys are absent,
because the first `updateSlowData` call initializes its timestamp and
skips. -/
theorem C3_amended_sentinels (env envR : Env) (t t2 : Nat)
    (hnet1 : env.network.firstAllocOk = true)
    (hnet2 : env.network.overflowed = true → env.network.secondAllocOk = true)
    (httl : (t2 - t) / 1000 < 60) :
    (∀ k ∈ staticCategoryKeys,
      ((getSystemInfo envR t2 (initializeCache env t initState).1).1.lookup k).isSome
        = true) ∧
    (getSystemInfo envR t2 (initializeCache env t initState).1).1.lookup "storage"
      = some (getStorageInfo env.storage) ∧
    (getSystemInfo envR t2 (initializeCache env t initState).1).1.lookup "battery"
      = some (getBatteryInfo env.battery) ∧
    (getSystemInfo envR t2 (initializeCache env t initState).1).1.lookup "network"
      = some (getNetworkInfo env.network) ∧
    (getSystemInfo envR t2 (initializeCache env t initState).1).1.lookup "cpu" = none ∧
    (getSystemInfo envR t2 (initializeCache env t initState).1).1.lookup "memory" = none := by
  have hreach : Reach (initializeCache env t initState).1 := Reach.init env t
  have hinv := reach_inv _ hreach
  have hnoexp : staticExpired (initializeCache env t initState).1 t2 = false := by
    unfold staticExpired
    rw [initializeCache_last, IsStaticShape.not_empty _ hinv.1]
    simp only [Bool.false_or, decide_eq_false_iff_not, not_le]
    omega
  have hstateEq : (getSystemInfo envR t2 (initializeCache env t initState).1).2.1
      = (initializeCache env t initState).1 := by
    rw [getSystemInfo_state, hnoexp]
    rfl
  have hfst : (getSystemInfo envR t2 (initializeCache env t initState).1).1 =
      Json.mergePatch
        (Json.mergePatch .null (initializeCache env t initState).1.cachedDynamicInfo)
        (initializeCache env t initState).1.cachedStaticInfo := by
    rw [getSystemInfo_fst, hstateEq]
  have hns := snapshot_nonstatic_eq _ hinv.1 hinv.2
  have hdynEq := initializeCache_dyn env t
  refine ⟨?_, ?_, ?_, ?_, ?_, ?_⟩
  · intro k hk
    rw [hfst, snapshot_static_eq _ hinv.1 hinv.2 k hk]
    obtain ⟨d, n, p, m, bv, bs, br, g, a, hsh⟩ := hinv.1
    rw [hsh]
    simp only [staticCategoryKeys, List.mem_cons, List.not_mem_nil, or_false] at hk
    rcases hk with rfl | rfl | rfl | rfl | rfl <;> rfl
  · rw [hfst, hns "storage" (by simp [staticCategoryKeys]), hdynEq]
    obtain ⟨l, hl⟩ := getStorageInfo_arr env.storage
    rw [hl, (dynMerge_lookup _ _ _).1]
    rfl
  · rw [hfst, hns "battery" (by simp [staticCategoryKeys]), hdynEq]
    obtain ⟨pc, pl, dk, hb⟩ := getBatteryInfo_shape env.battery
    rw [hb, (dynMerge_lookup _ _ _).2.1]
    rfl
  · rw [hfst, hns "network" (by simp [staticCategoryKeys]), hdynEq]
    obtain ⟨e, w, hn⟩ := getNetworkInfo_obj env.network hnet1 hnet2
    rw [hn, (dynMerge_lookup _ _ _).2.2.1]
    rfl
  · rw [hfst, hns "cpu" (by simp [staticCategoryKeys]), hdynEq,
      (dynMerge_lookup _ _ _).2.2.2.1]
  · rw [hfst, hns "memory" (by simp [staticCategoryKeys]), hdynEq,
      (dynMerge_lookup _ _ _).2.2.2.2]

/-- A healthy concrete environment for the C3 amended-claim witness. -/
def envC3b : Env :=
  ⟨⟨false, none, some "PC", 0, 1⟩, some "PC",
   ⟨false, true, some "B650", some "ASUS", some "SN1", some "1.2", some "BS9"⟩,
   ⟨false, true, [], true, []⟩, ⟨false, true, []⟩, ⟨false, true, []⟩,
   ⟨0, 0, 0, true, []⟩, ⟨false, true, [], []⟩, ⟨none⟩,
   ⟨true, false, true, true, [⟨"Intel Ethernet", "{A1}", "10.0.0.2", 6⟩]⟩⟩

/-- Witness for the amended C3: with a healthy network source the snapshot
binds the network key, and right after initialization it has no cpu key. -/
theorem C3_amended_sentinels_witness :
    (getSystemInfo envC3b 500 (initializeCache envC3b 0 initState).1).1.lookup "network"
      = some (getNetworkInfo envC3b.network) ∧
    (getSystemInfo envC3b 500 (initializeCache envC3b 0 initState).1).1.lookup "cpu"
      = none :=
  ⟨(C3_amended_sentinels envC3b envC3b 0 500 rfl (fun h => absurd h (by decide))
      (by decide)).2.2.2.1,
   (C3_amended_sentinels envC3b envC3b 0 500 rfl (fun h => absurd h (by decide))
      (by decide)).2.2.2.2.1⟩

/-- A concrete healthy environment for the C9 counterexample. -/
def envC9 : Env :=
  ⟨⟨false, some "SER9", some "HOST9", 0, 4⟩, some "HOST9",
   ⟨false, true, some "B", some "M", some "S", some "V", some "W"⟩,
   ⟨false, true, [], true, []⟩, ⟨false, true, []⟩, ⟨false, true, []⟩,
   ⟨0, 0, 0, true, []⟩, ⟨false, true, [], []⟩, ⟨none⟩,
   ⟨true, false, true, true, []⟩⟩

/-- Counterexample to claim C9: neither misuse signals an invalid-state
condition.  A `getSystemInfo` call on the never-initialized state completes
normally — it quietly performs the inline static refresh, returns a
populated record and reports nothing to the log — and a second `cleanup`
leaves the state exactly as the first left it (the embedding is faithful to
the source, which contains no lifecycle check and no error path for either
call). -/
theorem C9_counterexample :
    ((getSystemInfo envC9 0 initState).1.lookup "deviceId").isSome = true ∧
    (getSystemInfo envC9 0 initState).2.2 = [] ∧
    cleanup (cleanup (cleanup initState)) = cleanup (cleanup initState) :=
  ⟨rfl, rfl, rfl⟩

/-- Claim C9, amended as the code behaves: calling `getSnapshot` before
`initialize` is silently absorbed — the empty static tier makes the read
perform the inline refresh itself (invoking the five static adapters) and
return the merged record with a null dynamic side — and calling `shutdown`
again after a shutdown is a no-op on the state; no invalid-state condition
exists in either path. -/
theorem C9_amended_silent_lifecycle (env : Env) (t : Nat) :
    staticExpired initState t = true ∧
    (getSystemInfo env t initState).2.1 = (refreshStatic env t initState).1 ∧
    (getSystemInfo env t initState).2.1.staticCalls = 5 ∧
    (getSystemInfo env t initState).1 =
      Json.mergePatch (Json.mergePatch .null .null)
        (refreshStatic env t initState).1.cachedStaticInfo ∧
    (∀ s : CState, cleanup (cleanup s) = cleanup s ∧ (cleanup s).running = false) := by
  have hexp : staticExpired initState t = true := rfl
  have hstateEq : (getSystemInfo env t initState).2.1 = (refreshStatic env t initState).1 := by
    rw [getSystemInfo_state, if_pos hexp]
  refine ⟨hexp, hstateEq, ?_, ?_, ?_⟩
  · rw [hstateEq, refreshStatic_calls]
    rfl
  · rw [getSystemInfo_fst, hstateEq, refreshStatic_dyn]
    rfl
  · intro s
    exact ⟨rfl, rfl⟩
